import Mathlib

/-!
Amaterasu driver callbacks: tracking set and event dispatch.

A shallow embedding of `callbacks.c`.  The driver-wide global `Amaterasu` becomes an explicit
record that every function receives and returns.  Kernel services the callbacks consult
(`PsLookupProcessByProcessId`, `SeLocateProcessImageName`, `PsGetCurrentProcessId`) are the
fields of an `OS` record, so that every statement quantifies over all their possible answers.
The code is read sequentially: the spin lock of `AddPidToHandleArr` has no effect on a single
thread of control and is not represented.  `AreWeTrackingIt` gives the value and state of a
lookup that returns; `AreWeTrackingItFull` adds the release of line 50, which is undefined on
a pointer that was never assigned.  The start-up path of `e.c` (`DriverEntry`, `Setup`,
`OpenPorts`, `CreatePort`) is embedded over a record of what is registered with the host.
-/

namespace Amaterasu

/-! ## Kernel types -/

/-- A `HANDLE` is an opaque pointer-sized value; only equality is used on it. -/
abbrev HANDLE := Nat

/-- An untyped pointer. -/
abbrev PVOID := Nat

/-- A pointer to an executive process object. -/
abbrev PEPROCESS := Nat

/-- Kernel status code, a signed integer. -/
abbrev NTSTATUS := Int

/-- Wide character. -/
abbrev WCHAR := Char

/-- The macro `NT_SUCCESS(Status)`: `((NTSTATUS)(Status)) >= 0`. -/
def NT_SUCCESS (Status : NTSTATUS) : Bool := decide (0 ≤ Status)

/-- The constant `STATUS_SUCCESS`, `0x00000000`. -/
def STATUS_SUCCESS : NTSTATUS := 0

/-- The constant `STATUS_UNSUCCESSFUL`, `0xC0000001` read as a signed 32-bit integer. -/
def STATUS_UNSUCCESSFUL : NTSTATUS := -1073741823

/-- The member `RegNtSetValueKey` of the enumeration `REG_NOTIFY_CLASS`. -/
def RegNtSetValueKey : Nat := 1

/-- The member `RegNtDeleteValueKey` of the enumeration `REG_NOTIFY_CLASS`. -/
def RegNtDeleteValueKey : Nat := 2

/-- The cast `(REG_NOTIFY_CLASS)RegNotifyClass` of a pointer to a 32-bit enumeration value. -/
def castRegNotifyClass (RegNotifyClass : PVOID) : Nat := RegNotifyClass % 2 ^ 32

/-- Return values of a filter pre-operation callback. -/
inductive FLT_PREOP_CALLBACK_STATUS where
  | FLT_PREOP_SUCCESS_WITH_CALLBACK
  | FLT_PREOP_SUCCESS_NO_CALLBACK
  | FLT_PREOP_PENDING
  | FLT_PREOP_DISALLOW_FASTIO
  | FLT_PREOP_COMPLETE
  | FLT_PREOP_SYNCHRONIZE
  deriving DecidableEq

/-- A counted wide string; `Buffer` may be the null pointer. -/
structure UNICODE_STRING where
  Buffer : Option (List WCHAR)
  deriving DecidableEq

/-- The callback data of an I/O operation: the requestor process it records, and the rest of
the structure kept as an opaque reference. -/
structure FLT_CALLBACK_DATA where
  RequestorProcessId : HANDLE
  Ref : PVOID
  deriving DecidableEq

/-- The kernel service `FltGetRequestorProcessId`. -/
def FltGetRequestorProcessId (Data : FLT_CALLBACK_DATA) : HANDLE := Data.RequestorProcessId

/-! ## Event payloads -/

/-- The local `LoadImageData` filled by `AmaterasuLoadImageCallback`. -/
structure LOAD_IMAGE_DATA where
  FullImageName : Option UNICODE_STRING
  ProcessId : HANDLE
  ImageInfo : PVOID
  deriving DecidableEq

/-- The local `RegInfoData` filled by `AmaterasuRegCallback`. -/
structure REG_INFO_DATA where
  RegNotifyClass : Nat
  RegStruct : PVOID
  deriving DecidableEq

/-- The member `Id` of `IDENTIFIER`: the callbacks write either `Id.PID` or `Id.TID`. -/
inductive ID where
  | PID (h : HANDLE)
  | TID (h : HANDLE)
  deriving DecidableEq

/-- The local `IDs` filled by the process and thread callbacks. -/
structure IDENTIFIER where
  Active : Bool
  PPID : HANDLE
  Id : ID
  isThread : Bool
  deriving DecidableEq

/-- The tag passed as third argument of `InfoListAppend`. -/
inductive INFO_TYPE where
  | INFO_FS
  | INFO_LOAD
  | INFO_REG
  | INFO_PROC
  deriving DecidableEq

/-- What the second argument of `InfoListAppend` points to. -/
inductive INFO_DATA where
  | fs (Data : FLT_CALLBACK_DATA)
  | load (LoadImageData : LOAD_IMAGE_DATA)
  | reg (RegInfoData : REG_INFO_DATA)
  | proc (IDs : IDENTIFIER)
  deriving DecidableEq

/-- One request to the capture queue: payload and tag. -/
structure INFO where
  Data : INFO_DATA
  InfoType : INFO_TYPE
  deriving DecidableEq

/-! ## Driver state and environment -/

/-- The global `Amaterasu`, restricted to the members `callbacks.c` touches.

`HandleArr` is the array of tracked ids with `HandleArrSize` its fill count, `TargetName` is
`DriverSettings.TargetName`, and `InfoList` is the queue handle (`none` is the null pointer).
Two history fields that the C structure does not have record what the code did:
`Discovered` counts the insertions made by the name-resolution branch of `AreWeTrackingIt`,
and `AppendCalls` lists the `InfoListAppend` calls issued so far, successful or not. -/
structure AMATERASU where
  HandleArr : Nat → HANDLE
  HandleArrSize : Nat
  TargetName : List WCHAR
  InfoList : Option (List INFO)
  Discovered : Nat
  AppendCalls : List INFO

/-- Answers of the kernel services consulted during one callback invocation. -/
structure OS where
  PsLookupProcessByProcessId : HANDLE → NTSTATUS × PEPROCESS
  SeLocateProcessImageName : PEPROCESS → NTSTATUS × Option UNICODE_STRING
  PsGetCurrentProcessId : HANDLE

/-- The tracking set as a sequence: the first `HandleArrSize` slots of `HandleArr`. -/
def AMATERASU.entries (A : AMATERASU) : List HANDLE :=
  (List.range A.HandleArrSize).map A.HandleArr

/-- The C library routine `wcsstr`: the first suffix of `str` that starts with `strSearch`,
or `none` (the null pointer) when there is none. -/
def wcsstr : List WCHAR → List WCHAR → Option (List WCHAR)
  | [], strSearch => if strSearch = [] then some [] else none
  | c :: str, strSearch =>
    if strSearch.isPrefixOf (c :: str) then some (c :: str) else wcsstr str strSearch

/-- Modelled from the spec: `InfoListAppend` is declared in `amaterasu.h` and defined in a
file that the sources do not include.  The spec gives its contract: `Append(kind, payload)`
returns a status; on internal failure it returns a failure status and the event is dropped;
otherwise the queue owns a copy of the record.  `Outcome` is the status the call returns.
Every call is also written to the history `AppendCalls`. -/
def InfoListAppend (Outcome : NTSTATUS) (A : AMATERASU) (Data : INFO_DATA)
    (InfoType : INFO_TYPE) : NTSTATUS × AMATERASU :=
  let A1 := { A with AppendCalls := A.AppendCalls ++ [⟨Data, InfoType⟩] }
  match A.InfoList with
  | some q =>
    if NT_SUCCESS Outcome then (Outcome, { A1 with InfoList := some (q ++ [⟨Data, InfoType⟩]) })
    else (Outcome, A1)
  | none => (Outcome, A1)

/-! ## The functions of `callbacks.c` -/

/-- `AddPidToHandleArr`, lines 7-20. -/
def AddPidToHandleArr (A : AMATERASU) (PID : HANDLE) : AMATERASU :=
  if A.HandleArrSize < 1024 then
    { A with
      HandleArr := fun i => if i = A.HandleArrSize then PID else A.HandleArr i
      HandleArrSize := A.HandleArrSize + 1 }
  else A

/-- The `for` loop of `AreWeTrackingIt`, lines 30-34: `n` iterations remain and the loop
variable is `i`. -/
def scanHandleArr (HandleArr : Nat → HANDLE) (PID : HANDLE) : Nat → Nat → Bool
  | 0, _ => false
  | n + 1, i => if PID = HandleArr i then true else scanHandleArr HandleArr PID n (i + 1)

/-- `AreWeTrackingIt`, lines 22-54: the value the call returns and the state it leaves.
The release `RtlFreeUnicodeString(ImageName)` of line 50 changes none of the fields of
`AMATERASU`; whether that call is defined at all is what `AreWeTrackingItFull` below adds. -/
def AreWeTrackingIt (os : OS) (A : AMATERASU) (PID : HANDLE) : Bool × AMATERASU :=
  if A.HandleArrSize ≠ 0 then
    (scanHandleArr A.HandleArr PID A.HandleArrSize 0, A)
  else
    let Lookup := os.PsLookupProcessByProcessId PID
    if NT_SUCCESS Lookup.1 then
      let Locate := os.SeLocateProcessImageName Lookup.2
      if NT_SUCCESS Locate.1 then
        match Locate.2 with
        | some ⟨some Buffer⟩ =>
          if (wcsstr Buffer A.TargetName).isSome then
            (true, { AddPidToHandleArr A PID with Discovered := A.Discovered + 1 })
          else (false, A)
        | _ => (false, A)
      else (false, A)
    else (false, A)

/-- The kernel routine `RtlFreeUnicodeString` applied to the pointer `ImageName`.  On a
pointer to a string it releases the string, which no field of the model records.  On a
pointer that is NULL or was never assigned (`none`) the routine dereferences it: the
behaviour is undefined, and the result is `none`. -/
def RtlFreeUnicodeString (ImageName : Option UNICODE_STRING) : Option Unit :=
  match ImageName with
  | some _ => some ()
  | none => none

/-- `AreWeTrackingIt`, lines 22-54, with the release of line 50.  The local `ImageName` is
declared without a value on line 27 and is assigned by `SeLocateProcessImageName` only when
that call succeeds; line 50 sits outside the test of line 41, so it runs whenever the
process lookup succeeded.  The result is `none` when line 50 is undefined, and otherwise
what the call returns. -/
def AreWeTrackingItFull (os : OS) (A : AMATERASU) (PID : HANDLE) :
    Option (Bool × AMATERASU) :=
  if A.HandleArrSize ≠ 0 then
    some (scanHandleArr A.HandleArr PID A.HandleArrSize 0, A)
  else
    let Lookup := os.PsLookupProcessByProcessId PID
    if NT_SUCCESS Lookup.1 then
      let Locate := os.SeLocateProcessImageName Lookup.2
      let ImageName : Option UNICODE_STRING := if NT_SUCCESS Locate.1 then Locate.2 else none
      let Ret : Bool × AMATERASU :=
        if NT_SUCCESS Locate.1 then
          match ImageName with
          | some ⟨some Buffer⟩ =>
            if (wcsstr Buffer A.TargetName).isSome then
              (true, { AddPidToHandleArr A PID with Discovered := A.Discovered + 1 })
            else (false, A)
          | _ => (false, A)
        else (false, A)
      match RtlFreeUnicodeString ImageName with
      | some _ => some Ret
      | none => none
    else some (false, A)

/-- The condition under which line 50 receives a pointer that is NULL or was never assigned:
the set is empty, the process lookup succeeds, and the image-name resolution fails or
yields a null name. -/
def BadFree (os : OS) (A : AMATERASU) (PID : HANDLE) : Bool :=
  decide (A.HandleArrSize = 0) &&
  (NT_SUCCESS (os.PsLookupProcessByProcessId PID).1 &&
    (!NT_SUCCESS (os.SeLocateProcessImageName (os.PsLookupProcessByProcessId PID).2).1 ||
      (os.SeLocateProcessImageName (os.PsLookupProcessByProcessId PID).2).2.isNone))

/-- `AmaterasuDefaultPreCallback`, lines 56-75. -/
def AmaterasuDefaultPreCallback (os : OS) (Outcome : NTSTATUS) (A : AMATERASU)
    (Data : FLT_CALLBACK_DATA) : FLT_PREOP_CALLBACK_STATUS × AMATERASU :=
  let PID := FltGetRequestorProcessId Data
  let T := AreWeTrackingIt os A PID
  if T.1 then
    if T.2.InfoList.isSome then
      (.FLT_PREOP_SUCCESS_NO_CALLBACK, (InfoListAppend Outcome T.2 (.fs Data) .INFO_FS).2)
    else (.FLT_PREOP_SUCCESS_NO_CALLBACK, T.2)
  else (.FLT_PREOP_SUCCESS_NO_CALLBACK, T.2)

/-- `AmaterasuLoadImageCallback`, lines 86-105. -/
def AmaterasuLoadImageCallback (os : OS) (Outcome : NTSTATUS) (A : AMATERASU)
    (FullImageName : Option UNICODE_STRING) (ProcessId : HANDLE) (ImageInfo : PVOID) :
    AMATERASU :=
  let T := AreWeTrackingIt os A ProcessId
  if T.1 then
    (InfoListAppend Outcome T.2 (.load ⟨FullImageName, ProcessId, ImageInfo⟩) .INFO_LOAD).2
  else T.2

/-- `AmaterasuRegCallback`, lines 107-144. -/
def AmaterasuRegCallback (os : OS) (Outcome : NTSTATUS) (A : AMATERASU)
    (RegNotifyClass : PVOID) (RegStruct : PVOID) : NTSTATUS × AMATERASU :=
  let Status := STATUS_SUCCESS
  let RegClass := castRegNotifyClass RegNotifyClass
  if RegClass ≠ RegNtSetValueKey ∧ RegClass ≠ RegNtDeleteValueKey then
    (Status, A)
  else
    let PID := os.PsGetCurrentProcessId
    let T := AreWeTrackingIt os A PID
    if T.1 then
      let R := InfoListAppend Outcome T.2 (.reg ⟨RegClass, RegStruct⟩) .INFO_REG
      if ¬ NT_SUCCESS R.1 then (STATUS_UNSUCCESSFUL, R.2) else (R.1, R.2)
    else (Status, T.2)

/-- `AmaterasuProcCallback`, lines 146-172. -/
def AmaterasuProcCallback (os : OS) (Outcome : NTSTATUS) (A : AMATERASU)
    (PPID PID : HANDLE) (Active : Bool) : AMATERASU :=
  let T := AreWeTrackingIt os A PID
  if ¬ T.1 then
    let P := AreWeTrackingIt os T.2 PPID
    if P.1 then
      (InfoListAppend Outcome (AddPidToHandleArr P.2 PID)
        (.proc ⟨Active, PPID, .PID PID, false⟩) .INFO_PROC).2
    else P.2
  else
    (InfoListAppend Outcome T.2 (.proc ⟨Active, PPID, .PID PID, false⟩) .INFO_PROC).2

/-- `AmaterasuProcCallback`, lines 146-172, over `AreWeTrackingItFull`: `none` when one of
its lookups reaches an undefined line 50, and otherwise the state the callback leaves. -/
def AmaterasuProcCallbackFull (os : OS) (Outcome : NTSTATUS) (A : AMATERASU)
    (PPID PID : HANDLE) (Active : Bool) : Option AMATERASU :=
  match AreWeTrackingItFull os A PID with
  | none => none
  | some T =>
    if ¬ T.1 then
      match AreWeTrackingItFull os T.2 PPID with
      | none => none
      | some P =>
        if P.1 then
          some (InfoListAppend Outcome (AddPidToHandleArr P.2 PID)
            (.proc ⟨Active, PPID, .PID PID, false⟩) .INFO_PROC).2
        else some P.2
    else
      some (InfoListAppend Outcome T.2 (.proc ⟨Active, PPID, .PID PID, false⟩) .INFO_PROC).2

/-- `AmaterasuThreadCallback`, lines 174-193. -/
def AmaterasuThreadCallback (os : OS) (Outcome : NTSTATUS) (A : AMATERASU)
    (PPID TID : HANDLE) (Active : Bool) : AMATERASU :=
  let T := AreWeTrackingIt os A PPID
  if T.1 then
    (InfoListAppend Outcome T.2 (.proc ⟨Active, PPID, .TID TID, true⟩) .INFO_PROC).2
  else T.2

/-! ## Runs -/

/-- The arguments of one callback invocation by the host. -/
inductive Call where
  | DefaultPre (Data : FLT_CALLBACK_DATA)
  | LoadImage (FullImageName : Option UNICODE_STRING) (ProcessId : HANDLE) (ImageInfo : PVOID)
  | Reg (RegNotifyClass : PVOID) (RegStruct : PVOID)
  | Proc (PPID PID : HANDLE) (Active : Bool)
  | Thread (PPID TID : HANDLE) (Active : Bool)

/-- One callback invocation together with what the kernel services answer during it and the
status its `InfoListAppend` call returns, if it makes one. -/
structure Invocation where
  os : OS
  Outcome : NTSTATUS
  call : Call

/-- The state after one callback invocation. -/
def invoke (A : AMATERASU) (v : Invocation) : AMATERASU :=
  match v.call with
  | .DefaultPre Data => (AmaterasuDefaultPreCallback v.os v.Outcome A Data).2
  | .LoadImage FullImageName ProcessId ImageInfo =>
    AmaterasuLoadImageCallback v.os v.Outcome A FullImageName ProcessId ImageInfo
  | .Reg RegNotifyClass RegStruct => (AmaterasuRegCallback v.os v.Outcome A RegNotifyClass RegStruct).2
  | .Proc PPID PID Active => AmaterasuProcCallback v.os v.Outcome A PPID PID Active
  | .Thread PPID TID Active => AmaterasuThreadCallback v.os v.Outcome A PPID TID Active

/-- The state after a finite sequence of callback invocations. -/
def run (A : AMATERASU) (vs : List Invocation) : AMATERASU := vs.foldl invoke A

/-- A step of a run that may also call the two static functions directly. -/
inductive Op where
  | handler (v : Invocation)
  | Insert (PID : HANDLE)
  | Contains (os : OS) (PID : HANDLE)

/-- The state after one step. -/
def applyOp (A : AMATERASU) : Op → AMATERASU
  | .handler v => invoke A v
  | .Insert PID => AddPidToHandleArr A PID
  | .Contains os PID => (AreWeTrackingIt os A PID).2

/-- The state after a finite sequence of steps. -/
def runOps (A : AMATERASU) (ops : List Op) : AMATERASU := ops.foldl applyOp A

/-- The spec's condition for name-based discovery of `PID`: process lookup and image-name
resolution both succeed, and the resolved image path contains the target name. -/
def ResolvesToTarget (os : OS) (TargetName : List WCHAR) (PID : HANDLE) : Prop :=
  NT_SUCCESS (os.PsLookupProcessByProcessId PID).1 = true ∧
  NT_SUCCESS (os.SeLocateProcessImageName (os.PsLookupProcessByProcessId PID).2).1 = true ∧
  ∃ Buffer, (os.SeLocateProcessImageName (os.PsLookupProcessByProcessId PID).2).2
      = some ⟨some Buffer⟩ ∧ TargetName <:+: Buffer

/-- The link between the discovery counter and the set: nothing was discovered while the set
is empty, and at most one id was ever discovered. -/
def DiscoveryInv (A : AMATERASU) : Prop :=
  A.Discovered ≤ 1 ∧ (A.HandleArrSize = 0 → A.Discovered = 0)

/-- The tracking array and its fill count are the same in `A` and `B`. -/
def SameTracking (A B : AMATERASU) : Prop :=
  B.HandleArr = A.HandleArr ∧ B.HandleArrSize = A.HandleArrSize

/-! ## Driver start-up, `e.c` -/

/-- What is registered with the host at a point of `DriverEntry`: the filter
(`Amaterasu.FilterHandle`), the communication port (`Amaterasu.ServerPort`), the security
descriptor `Sd` while it is allocated, the queue (`Amaterasu.InfoList` non-null) and whether
filtering has started. -/
structure REGISTRATIONS where
  FilterHandle : Bool
  ServerPort : Bool
  Sd : Bool
  InfoList : Bool
  Filtering : Bool
  deriving DecidableEq

/-- Answers of the services `DriverEntry` calls.  A service that fails registers nothing.
`Indeterminate` is the value a caller reads after a `return` that has no expression, as on
line 204 of `e.c`. -/
structure LOADER where
  FltRegisterFilter : NTSTATUS
  FltBuildDefaultSecurityDescriptor : NTSTATUS
  FltCreateCommunicationPort : NTSTATUS
  InfoListGet : Bool
  FltStartFiltering : NTSTATUS
  Indeterminate : NTSTATUS

/-- The state before `DriverEntry` runs: nothing is registered. -/
def REGISTRATIONS.none : REGISTRATIONS := ⟨false, false, false, false, false⟩

/-- The kernel service `FltUnregisterFilter`: the filter leaves the host's list. -/
def FltUnregisterFilter (R : REGISTRATIONS) : REGISTRATIONS :=
  { R with FilterHandle := false, Filtering := false }

/-- The kernel service `FltFreeSecurityDescriptor`. -/
def FltFreeSecurityDescriptor (R : REGISTRATIONS) : REGISTRATIONS := { R with Sd := false }

/-- `CreatePort`, lines 73-118 of `e.c`. -/
def CreatePort (k : LOADER) (R : REGISTRATIONS) : NTSTATUS × REGISTRATIONS :=
  let Status := k.FltCreateCommunicationPort
  (Status, if NT_SUCCESS Status then { R with ServerPort := true } else R)

/-- `OpenPorts`, lines 136-179 of `e.c`. -/
def OpenPorts (k : LOADER) (R : REGISTRATIONS) : NTSTATUS × REGISTRATIONS :=
  let Status := k.FltBuildDefaultSecurityDescriptor
  if ¬ NT_SUCCESS Status then (Status, R)
  else
    let P := CreatePort k { R with Sd := true }
    if ¬ NT_SUCCESS P.1 then (P.1, FltFreeSecurityDescriptor P.2)
    else (P.1, FltFreeSecurityDescriptor P.2)

/-- `Setup`, lines 191-208 of `e.c`.  When `InfoListGet` returns null the function leaves
through a `return` without an expression: the status the caller reads is `k.Indeterminate`. -/
def Setup (k : LOADER) (R : REGISTRATIONS) : NTSTATUS × REGISTRATIONS :=
  let O := OpenPorts k R
  if ¬ NT_SUCCESS O.1 then (O.1, O.2)
  else
    let R1 : REGISTRATIONS := { O.2 with InfoList := k.InfoListGet }
    if ¬ R1.InfoList then (k.Indeterminate, R1)
    else (O.1, R1)

/-- `DriverEntry`, lines 220-250 of `e.c`.  `AmaterasuCleanup` is defined in a file that the
sources do not include and is taken as a parameter. -/
def DriverEntry (AmaterasuCleanup : REGISTRATIONS → REGISTRATIONS) (k : LOADER)
    (R : REGISTRATIONS) : NTSTATUS × REGISTRATIONS :=
  let Status := k.FltRegisterFilter
  if ¬ NT_SUCCESS Status then (Status, R)
  else
    let S := Setup k { R with FilterHandle := true }
    if ¬ NT_SUCCESS S.1 then (S.1, FltUnregisterFilter S.2)
    else
      let Status := k.FltStartFiltering
      if ¬ NT_SUCCESS Status then (Status, FltUnregisterFilter (AmaterasuCleanup S.2))
      else (Status, { S.2 with Filtering := true })

/-- Start-up in which every kernel service succeeds and only the queue creation fails; the
bare `return` of `Setup` yields `r`. -/
def queueFailure (r : NTSTATUS) : LOADER := ⟨0, 0, 0, false, 0, r⟩

/-! ## Sample states and environments -/

/-- A freshly initialised driver: no tracked id, an empty queue, target name `mal`. -/
def emptyState : AMATERASU := ⟨fun _ => 0, 0, String.toList "mal", some [], 0, []⟩

/-- A saturated driver: slot `i` holds the id `i` for every `i < 1024`. -/
def fullState : AMATERASU := ⟨fun i => i, 1024, String.toList "mal", some [], 0, []⟩

/-- A driver that tracks the three ids `10`, `11`, `12`. -/
def smallState : AMATERASU := ⟨fun i => i + 10, 3, String.toList "mal", some [], 0, []⟩

/-- An environment in which every lookup succeeds and every image path is `mal.exe`; the
current process is `4`. -/
def matchingOS : OS :=
  ⟨fun PID => (0, PID), fun _ => (0, some ⟨some (String.toList "mal.exe")⟩), 4⟩

/-- An environment in which every process lookup fails. -/
def failingOS : OS := ⟨fun PID => (-1073741811, PID), fun _ => (0, none), 4⟩

/-- The environment `matchingOS` with the current process changed to the tracked id `10`. -/
def trackedOS : OS :=
  ⟨fun PID => (0, PID), fun _ => (0, some ⟨some (String.toList "mal.exe")⟩), 10⟩

/-- Three callback invocations: a process event, a thread event and a registry write. -/
def sampleRun : List Invocation :=
  [⟨matchingOS, 0, .Proc 1 2 true⟩, ⟨failingOS, -1, .Thread 2 9 true⟩,
   ⟨matchingOS, 0, .Reg 1 77⟩]

/-- A sequence that mixes direct inserts and lookups with callback invocations. -/
def sampleOps : List Op :=
  [.Insert 5, .handler ⟨matchingOS, 0, .Proc 5 6 true⟩, .Contains failingOS 8,
   .handler ⟨failingOS, -1, .DefaultPre ⟨6, 0⟩⟩]

/-- An environment in which every lookup succeeds and only the process `1` has an image
path that contains `mal`. -/
def parentOnlyOS : OS :=
  ⟨fun PID => (0, PID),
    fun e => if e = 1 then (0, some ⟨some (String.toList "mal.exe")⟩)
      else (0, some ⟨some (String.toList "calc.exe")⟩),
    4⟩

/-- An environment in which every process lookup succeeds and every image-name resolution
fails. -/
def unresolvedOS : OS := ⟨fun PID => (0, PID), fun _ => (STATUS_UNSUCCESSFUL, none), 4⟩

/-- An environment in which every lookup and resolution succeeds with a null image name. -/
def nullNameOS : OS := ⟨fun PID => (0, PID), fun _ => (0, none), 4⟩

/-- An environment in which every process lookup succeeds, the process `1` has the image
path `mal.exe`, and the image-name resolution fails for every other process. -/
def childUnresolvedOS : OS :=
  ⟨fun PID => (0, PID),
    fun e => if e = 1 then (0, some ⟨some (String.toList "mal.exe")⟩)
      else (STATUS_UNSUCCESSFUL, none),
    4⟩

/-- Three process events under `parentOnlyOS`: `2` is created by `1`, reported a second time,
and then creates `3`. -/
def propagationRun : List Invocation :=
  [⟨parentOnlyOS, 0, .Proc 1 2 true⟩, ⟨parentOnlyOS, 0, .Proc 1 2 true⟩,
   ⟨parentOnlyOS, -1, .Proc 2 3 false⟩]

/-! ## Basic facts about the helpers -/

theorem wcsstr_isSome_iff (str strSearch : List WCHAR) :
    (wcsstr str strSearch).isSome = true ↔ strSearch <:+: str := by
  induction str with
  | nil =>
    by_cases h : strSearch = []
    · simp [wcsstr, h]
    · simp [wcsstr, h]
  | cons c str ih =>
    unfold wcsstr
    by_cases h : strSearch.isPrefixOf (c :: str) = true
    · rw [if_pos h]
      simp only [Option.isSome_some, true_iff]
      exact (List.isPrefixOf_iff_prefix.mp h).isInfix
    · rw [if_neg h, ih]
      have hp : ¬ strSearch <+: c :: str := fun hp => h (List.isPrefixOf_iff_prefix.mpr hp)
      rw [List.infix_cons_iff]
      constructor
      · intro hi
        exact Or.inr hi
      · rintro (hp1 | hi)
        · exact absurd hp1 hp
        · exact hi

theorem scanHandleArr_eq_true_iff (HandleArr : Nat → HANDLE) (PID : HANDLE) (n i : Nat) :
    scanHandleArr HandleArr PID n i = true ↔ ∃ j, i ≤ j ∧ j < i + n ∧ HandleArr j = PID := by
  induction n generalizing i with
  | zero =>
    simp only [scanHandleArr, Bool.false_eq_true, false_iff]
    rintro ⟨j, h1, h2, _⟩
    omega
  | succ n ih =>
    unfold scanHandleArr
    by_cases h : PID = HandleArr i
    · rw [if_pos h]
      simp only [true_iff]
      exact ⟨i, le_refl i, by omega, h.symm⟩
    · rw [if_neg h, ih]
      constructor
      · rintro ⟨j, h1, h2, h3⟩
        exact ⟨j, by omega, by omega, h3⟩
      · rintro ⟨j, h1, h2, h3⟩
        have hne : j ≠ i := by
          rintro rfl
          exact h h3.symm
        exact ⟨j, by omega, by omega, h3⟩

theorem mem_entries_iff (A : AMATERASU) (PID : HANDLE) :
    PID ∈ A.entries ↔ ∃ j, j < A.HandleArrSize ∧ A.HandleArr j = PID := by
  simp [AMATERASU.entries]

theorem scanHandleArr_eq_true_iff_mem (A : AMATERASU) (PID : HANDLE) :
    scanHandleArr A.HandleArr PID A.HandleArrSize 0 = true ↔ PID ∈ A.entries := by
  rw [scanHandleArr_eq_true_iff, mem_entries_iff]
  constructor
  · rintro ⟨j, _, h2, h3⟩
    exact ⟨j, by omega, h3⟩
  · rintro ⟨j, h2, h3⟩
    exact ⟨j, Nat.zero_le j, by omega, h3⟩

/-! ## `AreWeTrackingIt` by cases -/

theorem AreWeTrackingIt_of_ne_zero (os : OS) (A : AMATERASU) (PID : HANDLE)
    (h : A.HandleArrSize ≠ 0) :
    AreWeTrackingIt os A PID = (scanHandleArr A.HandleArr PID A.HandleArrSize 0, A) := by
  unfold AreWeTrackingIt
  rw [if_pos h]

theorem AreWeTrackingIt_empty_of_resolves (os : OS) (A : AMATERASU) (PID : HANDLE)
    (h : A.HandleArrSize = 0) (hr : ResolvesToTarget os A.TargetName PID) :
    AreWeTrackingIt os A PID
      = (true, { AddPidToHandleArr A PID with Discovered := A.Discovered + 1 }) := by
  obtain ⟨h1, h2, Buffer, h3, h4⟩ := hr
  have h5 : (wcsstr Buffer A.TargetName).isSome = true := (wcsstr_isSome_iff _ _).mpr h4
  unfold AreWeTrackingIt
  simp only [h, ne_eq, not_true_eq_false, if_false, h1, h2, if_true, h3, h5]

theorem AreWeTrackingIt_empty_of_not_resolves (os : OS) (A : AMATERASU) (PID : HANDLE)
    (h : A.HandleArrSize = 0) (hr : ¬ ResolvesToTarget os A.TargetName PID) :
    AreWeTrackingIt os A PID = (false, A) := by
  unfold AreWeTrackingIt
  simp only [h, ne_eq, not_true_eq_false, if_false]
  by_cases h1 : NT_SUCCESS (os.PsLookupProcessByProcessId PID).1 = true
  · rw [if_pos h1]
    by_cases h2 :
        NT_SUCCESS (os.SeLocateProcessImageName (os.PsLookupProcessByProcessId PID).2).1 = true
    · rw [if_pos h2]
      split
      · next Buffer h3 =>
        by_cases h5 : (wcsstr Buffer A.TargetName).isSome = true
        · exact absurd ⟨h1, h2, Buffer, h3, (wcsstr_isSome_iff _ _).mp h5⟩ hr
        · rw [if_neg h5]
      · rfl
    · rw [if_neg h2]
  · rw [if_neg h1]

theorem AddPidToHandleArr_of_lt (A : AMATERASU) (PID : HANDLE) (h : A.HandleArrSize < 1024) :
    AddPidToHandleArr A PID =
      { A with
        HandleArr := fun i => if i = A.HandleArrSize then PID else A.HandleArr i
        HandleArrSize := A.HandleArrSize + 1 } := by
  unfold AddPidToHandleArr
  rw [if_pos h]

theorem AddPidToHandleArr_of_not_lt (A : AMATERASU) (PID : HANDLE)
    (h : ¬ A.HandleArrSize < 1024) : AddPidToHandleArr A PID = A := by
  unfold AddPidToHandleArr
  rw [if_neg h]

/-- Every outcome of `AreWeTrackingIt`: a pure scan of a non-empty set, a failed discovery
that changes nothing, or a successful discovery that inserts `PID` into the empty set. -/
theorem AreWeTrackingIt_cases (os : OS) (A : AMATERASU) (PID : HANDLE) :
    (AreWeTrackingIt os A PID).2 = A ∨
    (A.HandleArrSize = 0 ∧ AreWeTrackingIt os A PID
      = (true, { AddPidToHandleArr A PID with Discovered := A.Discovered + 1 })) := by
  by_cases h : A.HandleArrSize = 0
  · by_cases hr : ResolvesToTarget os A.TargetName PID
    · exact Or.inr ⟨h, AreWeTrackingIt_empty_of_resolves os A PID h hr⟩
    · rw [AreWeTrackingIt_empty_of_not_resolves os A PID h hr]
      exact Or.inl rfl
  · rw [AreWeTrackingIt_of_ne_zero os A PID h]
    exact Or.inl rfl

/-! ## Preservation along runs -/

/-- A property of the state that the three state-changing primitives preserve is preserved
by every callback. -/
theorem invoke_preserves (P : AMATERASU → Prop)
    (hAdd : ∀ A PID, P A → P (AddPidToHandleArr A PID))
    (hTrack : ∀ os A PID, P A → P (AreWeTrackingIt os A PID).2)
    (hApp : ∀ o A d t, P A → P (InfoListAppend o A d t).2)
    (A : AMATERASU) (v : Invocation) (h : P A) : P (invoke A v) := by
  obtain ⟨os, o, c⟩ := v
  cases c with
  | DefaultPre Data =>
    simp only [invoke, AmaterasuDefaultPreCallback]
    split_ifs
    · exact hApp _ _ _ _ (hTrack _ _ _ h)
    · exact hTrack _ _ _ h
    · exact hTrack _ _ _ h
  | LoadImage FullImageName ProcessId ImageInfo =>
    simp only [invoke, AmaterasuLoadImageCallback]
    split_ifs
    · exact hApp _ _ _ _ (hTrack _ _ _ h)
    · exact hTrack _ _ _ h
  | Reg RegNotifyClass RegStruct =>
    simp only [invoke, AmaterasuRegCallback]
    split_ifs
    · exact h
    · exact hApp _ _ _ _ (hTrack _ _ _ h)
    · exact hApp _ _ _ _ (hTrack _ _ _ h)
    · exact hTrack _ _ _ h
  | Proc PPID PID Active =>
    simp only [invoke, AmaterasuProcCallback]
    by_cases hT : (AreWeTrackingIt os A PID).1 = true
    · rw [if_neg (not_not_intro hT)]
      exact hApp _ _ _ _ (hTrack _ _ _ h)
    · rw [if_pos hT]
      by_cases hP : (AreWeTrackingIt os (AreWeTrackingIt os A PID).2 PPID).1 = true
      · rw [if_pos hP]
        exact hApp _ _ _ _ (hAdd _ _ (hTrack _ _ _ (hTrack _ _ _ h)))
      · rw [if_neg hP]
        exact hTrack _ _ _ (hTrack _ _ _ h)
  | Thread PPID TID Active =>
    simp only [invoke, AmaterasuThreadCallback]
    split_ifs
    · exact hApp _ _ _ _ (hTrack _ _ _ h)
    · exact hTrack _ _ _ h

theorem runOps_preserves (P : AMATERASU → Prop)
    (hAdd : ∀ A PID, P A → P (AddPidToHandleArr A PID))
    (hTrack : ∀ os A PID, P A → P (AreWeTrackingIt os A PID).2)
    (hApp : ∀ o A d t, P A → P (InfoListAppend o A d t).2)
    (ops : List Op) (A : AMATERASU) (h : P A) : P (runOps A ops) := by
  induction ops generalizing A with
  | nil => exact h
  | cons op ops ih =>
    simp only [runOps, List.foldl_cons]
    apply ih
    cases op with
    | handler v => exact invoke_preserves P hAdd hTrack hApp A v h
    | Insert PID => exact hAdd A PID h
    | Contains os PID => exact hTrack os A PID h

theorem run_preserves (P : AMATERASU → Prop)
    (hAdd : ∀ A PID, P A → P (AddPidToHandleArr A PID))
    (hTrack : ∀ os A PID, P A → P (AreWeTrackingIt os A PID).2)
    (hApp : ∀ o A d t, P A → P (InfoListAppend o A d t).2)
    (vs : List Invocation) (A : AMATERASU) (h : P A) : P (run A vs) := by
  induction vs generalizing A with
  | nil => exact h
  | cons v vs ih =>
    simp only [run, List.foldl_cons]
    exact ih _ (invoke_preserves P hAdd hTrack hApp A v h)

/-- The two possible results of `InfoListAppend`. -/
theorem InfoListAppend_eq (o : NTSTATUS) (A : AMATERASU) (d : INFO_DATA) (t : INFO_TYPE) :
    InfoListAppend o A d t
      = (o, { A with
              InfoList := match A.InfoList with
                | some q => if NT_SUCCESS o = true then some (q ++ [⟨d, t⟩]) else some q
                | none => none
              AppendCalls := A.AppendCalls ++ [⟨d, t⟩] }) := by
  unfold InfoListAppend
  cases hq : A.InfoList with
  | none => simp only [hq]
  | some q =>
    cases h : NT_SUCCESS o with
    | true => simp
    | false => simp [hq]

/-- The tracking fields are out of reach of `InfoListAppend`. -/
theorem InfoListAppend_tracking (o : NTSTATUS) (A : AMATERASU) (d : INFO_DATA) (t : INFO_TYPE) :
    (InfoListAppend o A d t).2.HandleArr = A.HandleArr ∧
    (InfoListAppend o A d t).2.HandleArrSize = A.HandleArrSize ∧
    (InfoListAppend o A d t).2.TargetName = A.TargetName ∧
    (InfoListAppend o A d t).2.Discovered = A.Discovered := by
  rw [InfoListAppend_eq]
  exact ⟨rfl, rfl, rfl, rfl⟩

theorem InfoListAppend_status (o : NTSTATUS) (A : AMATERASU) (d : INFO_DATA) (t : INFO_TYPE) :
    (InfoListAppend o A d t).1 = o := by
  rw [InfoListAppend_eq]

theorem InfoListAppend_calls (o : NTSTATUS) (A : AMATERASU) (d : INFO_DATA) (t : INFO_TYPE) :
    (InfoListAppend o A d t).2.AppendCalls = A.AppendCalls ++ [⟨d, t⟩] := by
  rw [InfoListAppend_eq]

theorem InfoListAppend_queue (o : NTSTATUS) (A : AMATERASU) (d : INFO_DATA) (t : INFO_TYPE)
    (q : List INFO) (hq : A.InfoList = some q) :
    (InfoListAppend o A d t).2.InfoList
      = if NT_SUCCESS o = true then some (q ++ [⟨d, t⟩]) else some q := by
  rw [InfoListAppend_eq]
  simp only [hq]

/-! ## The tracking set under the primitives -/

theorem entries_AddPidToHandleArr (A : AMATERASU) (PID : HANDLE) :
    (AddPidToHandleArr A PID).entries
      = if A.HandleArrSize < 1024 then A.entries ++ [PID] else A.entries := by
  by_cases h : A.HandleArrSize < 1024
  · rw [AddPidToHandleArr_of_lt A PID h, if_pos h]
    simp only [AMATERASU.entries, List.range_succ, List.map_append, List.map_cons, List.map_nil,
      if_true]
    congr 1
    apply List.map_congr_left
    intro i hi
    have hlt : i < A.HandleArrSize := List.mem_range.mp hi
    rw [if_neg (Nat.ne_of_lt hlt)]
  · rw [AddPidToHandleArr_of_not_lt A PID h, if_neg h]

theorem HandleArrSize_AddPidToHandleArr_le (A : AMATERASU) (PID : HANDLE)
    (h : A.HandleArrSize ≤ 1024) : (AddPidToHandleArr A PID).HandleArrSize ≤ 1024 := by
  by_cases hlt : A.HandleArrSize < 1024
  · rw [AddPidToHandleArr_of_lt A PID hlt]
    exact hlt
  · rw [AddPidToHandleArr_of_not_lt A PID hlt]
    exact h

theorem AddPidToHandleArr_others (A : AMATERASU) (PID : HANDLE) :
    (AddPidToHandleArr A PID).TargetName = A.TargetName ∧
    (AddPidToHandleArr A PID).InfoList = A.InfoList ∧
    (AddPidToHandleArr A PID).Discovered = A.Discovered ∧
    (AddPidToHandleArr A PID).AppendCalls = A.AppendCalls := by
  by_cases hlt : A.HandleArrSize < 1024
  · rw [AddPidToHandleArr_of_lt A PID hlt]
    exact ⟨rfl, rfl, rfl, rfl⟩
  · rw [AddPidToHandleArr_of_not_lt A PID hlt]
    exact ⟨rfl, rfl, rfl, rfl⟩

theorem mem_entries_AddPidToHandleArr (A : AMATERASU) (PID p : HANDLE) (h : p ∈ A.entries) :
    p ∈ (AddPidToHandleArr A PID).entries := by
  rw [entries_AddPidToHandleArr]
  split_ifs
  · exact List.mem_append_left _ h
  · exact h

theorem HandleArrSize_eq_length_entries (A : AMATERASU) :
    A.entries.length = A.HandleArrSize := by
  simp [AMATERASU.entries]

theorem AreWeTrackingIt_of_false (os : OS) (A : AMATERASU) (PID : HANDLE)
    (h : (AreWeTrackingIt os A PID).1 = false) : (AreWeTrackingIt os A PID).2 = A := by
  rcases AreWeTrackingIt_cases os A PID with h1 | ⟨_, h2⟩
  · exact h1
  · rw [h2] at h
    exact Bool.noConfusion h

theorem AreWeTrackingIt_others (os : OS) (A : AMATERASU) (PID : HANDLE) :
    (AreWeTrackingIt os A PID).2.TargetName = A.TargetName ∧
    (AreWeTrackingIt os A PID).2.InfoList = A.InfoList ∧
    (AreWeTrackingIt os A PID).2.AppendCalls = A.AppendCalls := by
  rcases AreWeTrackingIt_cases os A PID with h1 | ⟨_, h2⟩
  · rw [h1]
    exact ⟨rfl, rfl, rfl⟩
  · rw [h2]
    exact ⟨(AddPidToHandleArr_others A PID).1, (AddPidToHandleArr_others A PID).2.1,
      (AddPidToHandleArr_others A PID).2.2.2⟩

theorem AreWeTrackingIt_eq_true_of_mem (os : OS) (A : AMATERASU) (PID : HANDLE)
    (h : PID ∈ A.entries) : AreWeTrackingIt os A PID = (true, A) := by
  have hne : A.HandleArrSize ≠ 0 := by
    intro h0
    simp [AMATERASU.entries, h0] at h
  rw [AreWeTrackingIt_of_ne_zero os A PID hne, (scanHandleArr_eq_true_iff_mem A PID).mpr h]

theorem AreWeTrackingIt_eq_false_of_not_mem (os : OS) (A : AMATERASU) (PID : HANDLE)
    (hne : A.HandleArrSize ≠ 0) (h : PID ∉ A.entries) : AreWeTrackingIt os A PID = (false, A) := by
  rw [AreWeTrackingIt_of_ne_zero os A PID hne]
  have hs : scanHandleArr A.HandleArr PID A.HandleArrSize 0 = false := by
    cases hc : scanHandleArr A.HandleArr PID A.HandleArrSize 0 with
    | false => rfl
    | true => exact absurd ((scanHandleArr_eq_true_iff_mem A PID).mp hc) h
  rw [hs]

/-- The capacity bound is kept by every primitive. -/
theorem HandleArrSize_AreWeTrackingIt_le (os : OS) (A : AMATERASU) (PID : HANDLE)
    (h : A.HandleArrSize ≤ 1024) : (AreWeTrackingIt os A PID).2.HandleArrSize ≤ 1024 := by
  rcases AreWeTrackingIt_cases os A PID with h1 | ⟨_, h2⟩
  · rw [h1]
    exact h
  · rw [h2]
    exact HandleArrSize_AddPidToHandleArr_le A PID h

/-- Membership is kept by every primitive. -/
theorem mem_entries_AreWeTrackingIt (os : OS) (A : AMATERASU) (PID p : HANDLE)
    (h : p ∈ A.entries) : p ∈ (AreWeTrackingIt os A PID).2.entries := by
  rcases AreWeTrackingIt_cases os A PID with h1 | ⟨_, h2⟩
  · rw [h1]
    exact h
  · rw [h2]
    exact mem_entries_AddPidToHandleArr A PID p h

theorem entries_InfoListAppend (o : NTSTATUS) (A : AMATERASU) (d : INFO_DATA) (t : INFO_TYPE) :
    (InfoListAppend o A d t).2.entries = A.entries := by
  rw [InfoListAppend_eq]
  rfl

theorem DiscoveryInv_AddPidToHandleArr (A : AMATERASU) (PID : HANDLE) (h : DiscoveryInv A) :
    DiscoveryInv (AddPidToHandleArr A PID) := by
  by_cases hlt : A.HandleArrSize < 1024
  · rw [AddPidToHandleArr_of_lt A PID hlt]
    refine ⟨h.1, ?_⟩
    intro h0
    exact absurd h0 (Nat.succ_ne_zero _)
  · rw [AddPidToHandleArr_of_not_lt A PID hlt]
    exact h

theorem DiscoveryInv_AreWeTrackingIt (os : OS) (A : AMATERASU) (PID : HANDLE)
    (h : DiscoveryInv A) : DiscoveryInv (AreWeTrackingIt os A PID).2 := by
  rcases AreWeTrackingIt_cases os A PID with h1 | ⟨h0, h2⟩
  · rw [h1]
    exact h
  · rw [h2, AddPidToHandleArr_of_lt A PID (by omega)]
    have hd : A.Discovered = 0 := h.2 h0
    refine ⟨?_, ?_⟩
    · show A.Discovered + 1 ≤ 1
      omega
    · intro hz
      exact absurd hz (Nat.succ_ne_zero _)

theorem DiscoveryInv_InfoListAppend (o : NTSTATUS) (A : AMATERASU) (d : INFO_DATA)
    (t : INFO_TYPE) (h : DiscoveryInv A) : DiscoveryInv (InfoListAppend o A d t).2 := by
  rw [InfoListAppend_eq]
  exact h

theorem ResolvesToTarget_matchingOS (PID : HANDLE) :
    ResolvesToTarget matchingOS (String.toList "mal") PID :=
  ⟨rfl, rfl, String.toList "mal.exe", rfl, ⟨[], String.toList ".exe", rfl⟩⟩

theorem not_mem_entries_fullState (PID : Nat) (h : 1024 ≤ PID) : PID ∉ fullState.entries := by
  rw [mem_entries_iff]
  rintro ⟨j, h1, h2⟩
  have h3 : j < 1024 := h1
  have h4 : j = PID := h2
  omega

theorem mem_entries_fullState (PID : Nat) (h : PID < 1024) : PID ∈ fullState.entries := by
  rw [mem_entries_iff]
  exact ⟨PID, h, rfl⟩

/-! ## The callbacks by cases -/

/-- The three ways through `AmaterasuProcCallback`, with both lookups read on the entry
state: a failed lookup leaves the state as it was. -/
theorem AmaterasuProcCallback_eq (os : OS) (o : NTSTATUS) (A : AMATERASU) (PPID PID : HANDLE)
    (Active : Bool) :
    AmaterasuProcCallback os o A PPID PID Active =
      if (AreWeTrackingIt os A PID).1 = true then
        (InfoListAppend o (AreWeTrackingIt os A PID).2
          (.proc ⟨Active, PPID, .PID PID, false⟩) .INFO_PROC).2
      else if (AreWeTrackingIt os A PPID).1 = true then
        (InfoListAppend o (AddPidToHandleArr (AreWeTrackingIt os A PPID).2 PID)
          (.proc ⟨Active, PPID, .PID PID, false⟩) .INFO_PROC).2
      else A := by
  unfold AmaterasuProcCallback
  by_cases hT : (AreWeTrackingIt os A PID).1 = true
  · simp only [hT, not_true_eq_false, if_false, if_true]
  · have hF : (AreWeTrackingIt os A PID).1 = false := by
      cases hc : (AreWeTrackingIt os A PID).1 with
      | false => rfl
      | true => exact absurd hc hT
    have hA : (AreWeTrackingIt os A PID).2 = A := AreWeTrackingIt_of_false os A PID hF
    simp only [hF, Bool.false_eq_true, not_false_eq_true, if_true, if_false, hA]
    by_cases hP : (AreWeTrackingIt os A PPID).1 = true
    · simp only [hP, if_true]
    · have hPF : (AreWeTrackingIt os A PPID).1 = false := by
        cases hc : (AreWeTrackingIt os A PPID).1 with
        | false => rfl
        | true => exact absurd hc hP
      simp only [hPF, Bool.false_eq_true, if_false]
      exact AreWeTrackingIt_of_false os A PPID hPF

/-- The record `AmaterasuProcCallback` builds. -/
theorem entries_AmaterasuProcCallback_of_mem (os : OS) (o : NTSTATUS) (A : AMATERASU)
    (PPID PID : HANDLE) (Active : Bool) (h : PID ∈ A.entries) :
    (AmaterasuProcCallback os o A PPID PID Active).entries = A.entries := by
  rw [AmaterasuProcCallback_eq, AreWeTrackingIt_eq_true_of_mem os A PID h]
  simp only [if_true]
  rw [entries_InfoListAppend]

theorem entries_AmaterasuProcCallback_of_parent (os : OS) (o : NTSTATUS) (A : AMATERASU)
    (PPID PID : HANDLE) (Active : Bool) (hP : PPID ∈ A.entries) (h : PID ∉ A.entries) :
    (AmaterasuProcCallback os o A PPID PID Active).entries
      = if A.HandleArrSize < 1024 then A.entries ++ [PID] else A.entries := by
  have hne : A.HandleArrSize ≠ 0 := by
    intro h0
    simp [AMATERASU.entries, h0] at hP
  rw [AmaterasuProcCallback_eq, AreWeTrackingIt_eq_false_of_not_mem os A PID hne h,
    AreWeTrackingIt_eq_true_of_mem os A PPID hP]
  simp only [Bool.false_eq_true, if_false, if_true]
  rw [entries_InfoListAppend, entries_AddPidToHandleArr]

/-- Propagation: a child of a tracked parent is an entry afterwards, unless the set is full. -/
theorem mem_entries_AmaterasuProcCallback (os : OS) (o : NTSTATUS) (A : AMATERASU)
    (PPID PID : HANDLE) (Active : Bool) (hP : PPID ∈ A.entries)
    (h : PID ∈ A.entries ∨ A.HandleArrSize < 1024) :
    PID ∈ (AmaterasuProcCallback os o A PPID PID Active).entries := by
  by_cases hm : PID ∈ A.entries
  · rw [entries_AmaterasuProcCallback_of_mem os o A PPID PID Active hm]
    exact hm
  · have hlt : A.HandleArrSize < 1024 := by
      rcases h with h1 | h1
      · exact absurd h1 hm
      · exact h1
    rw [entries_AmaterasuProcCallback_of_parent os o A PPID PID Active hP hm, if_pos hlt]
    exact List.mem_append_right _ (List.mem_singleton_self PID)

theorem HandleArrSize_ne_zero_of_mem (A : AMATERASU) (p : HANDLE) (h : p ∈ A.entries) :
    A.HandleArrSize ≠ 0 := by
  intro h0
  simp [AMATERASU.entries, h0] at h

theorem AmaterasuProcCallback_of_neither (os : OS) (o : NTSTATUS) (A : AMATERASU)
    (PPID PID : HANDLE) (Active : Bool) (hne : A.HandleArrSize ≠ 0) (h : PID ∉ A.entries)
    (hP : PPID ∉ A.entries) : AmaterasuProcCallback os o A PPID PID Active = A := by
  rw [AmaterasuProcCallback_eq, AreWeTrackingIt_eq_false_of_not_mem os A PID hne h,
    AreWeTrackingIt_eq_false_of_not_mem os A PPID hne hP]
  simp only [Bool.false_eq_true, if_false]

theorem AmaterasuThreadCallback_eq (os : OS) (o : NTSTATUS) (A : AMATERASU) (PPID TID : HANDLE)
    (Active : Bool) :
    AmaterasuThreadCallback os o A PPID TID Active =
      if (AreWeTrackingIt os A PPID).1 = true then
        (InfoListAppend o (AreWeTrackingIt os A PPID).2
          (.proc ⟨Active, PPID, .TID TID, true⟩) .INFO_PROC).2
      else A := by
  unfold AmaterasuThreadCallback
  by_cases hT : (AreWeTrackingIt os A PPID).1 = true
  · simp only [hT, if_true]
  · have hF : (AreWeTrackingIt os A PPID).1 = false := by
      cases hc : (AreWeTrackingIt os A PPID).1 with
      | false => rfl
      | true => exact absurd hc hT
    simp only [hF, Bool.false_eq_true, if_false]
    exact AreWeTrackingIt_of_false os A PPID hF

/-- A lookup that returns `TRUE` on an empty set discovered `PID` by name and left `[PID]`. -/
theorem discovery_set_of_empty (os : OS) (A : AMATERASU) (PID : HANDLE)
    (h0 : A.HandleArrSize = 0) (hT : (AreWeTrackingIt os A PID).1 = true) :
    ResolvesToTarget os A.TargetName PID ∧ (AreWeTrackingIt os A PID).2.entries = [PID] := by
  have hnil : A.entries = [] := by simp [AMATERASU.entries, h0]
  by_cases hr : ResolvesToTarget os A.TargetName PID
  · refine ⟨hr, ?_⟩
    rw [AreWeTrackingIt_empty_of_resolves os A PID h0 hr]
    show (AddPidToHandleArr A PID).entries = [PID]
    rw [entries_AddPidToHandleArr, if_pos (by omega), hnil]
    rfl
  · rw [AreWeTrackingIt_empty_of_not_resolves os A PID h0 hr] at hT
    exact Bool.noConfusion hT

theorem Bool_eq_false_of_not_true (b : Bool) (h : ¬ b = true) : b = false := by
  cases b with
  | false => rfl
  | true => exact absurd rfl h

theorem AmaterasuDefaultPreCallback_eq (os : OS) (o : NTSTATUS) (A : AMATERASU)
    (Data : FLT_CALLBACK_DATA) :
    AmaterasuDefaultPreCallback os o A Data =
      (.FLT_PREOP_SUCCESS_NO_CALLBACK,
        if (AreWeTrackingIt os A (FltGetRequestorProcessId Data)).1 = true
            ∧ A.InfoList.isSome = true then
          (InfoListAppend o (AreWeTrackingIt os A (FltGetRequestorProcessId Data)).2
            (.fs Data) .INFO_FS).2
        else (AreWeTrackingIt os A (FltGetRequestorProcessId Data)).2) := by
  unfold AmaterasuDefaultPreCallback
  have hq := (AreWeTrackingIt_others os A (FltGetRequestorProcessId Data)).2.1
  by_cases hT : (AreWeTrackingIt os A (FltGetRequestorProcessId Data)).1 = true
  · by_cases hI : A.InfoList.isSome = true
    · simp only [hT, hq, hI, if_true, and_self]
    · have hIf := Bool_eq_false_of_not_true _ hI
      simp only [hT, hq, hIf, Bool.false_eq_true, if_true, if_false, and_false]
  · have hF := Bool_eq_false_of_not_true _ hT
    simp only [hF, Bool.false_eq_true, if_false, false_and]

theorem AmaterasuLoadImageCallback_eq (os : OS) (o : NTSTATUS) (A : AMATERASU)
    (FullImageName : Option UNICODE_STRING) (ProcessId : HANDLE) (ImageInfo : PVOID) :
    AmaterasuLoadImageCallback os o A FullImageName ProcessId ImageInfo =
      if (AreWeTrackingIt os A ProcessId).1 = true then
        (InfoListAppend o (AreWeTrackingIt os A ProcessId).2
          (.load ⟨FullImageName, ProcessId, ImageInfo⟩) .INFO_LOAD).2
      else A := by
  unfold AmaterasuLoadImageCallback
  by_cases hT : (AreWeTrackingIt os A ProcessId).1 = true
  · simp only [hT, if_true]
  · have hF := Bool_eq_false_of_not_true _ hT
    simp only [hF, Bool.false_eq_true, if_false]
    exact AreWeTrackingIt_of_false os A ProcessId hF

/-- The entries before a primitive are an initial segment of the entries after it. -/
theorem entries_AddPidToHandleArr_initial (A : AMATERASU) (PID : HANDLE) :
    A.entries <+: (AddPidToHandleArr A PID).entries := by
  rw [entries_AddPidToHandleArr]
  split_ifs
  · exact ⟨[PID], rfl⟩
  · exact ⟨[], List.append_nil _⟩

theorem entries_AreWeTrackingIt_initial (os : OS) (A : AMATERASU) (PID : HANDLE) :
    A.entries <+: (AreWeTrackingIt os A PID).2.entries := by
  rcases AreWeTrackingIt_cases os A PID with h1 | ⟨_, h2⟩
  · exact ⟨[], (List.append_nil _).trans (congrArg AMATERASU.entries h1.symm)⟩
  · rw [h2]
    exact entries_AddPidToHandleArr_initial A PID

theorem initial_trans (l1 l2 l3 : List HANDLE) (h12 : l1 <+: l2) (h23 : l2 <+: l3) :
    l1 <+: l3 := by
  obtain ⟨t1, rfl⟩ := h12
  obtain ⟨t2, rfl⟩ := h23
  exact ⟨t1 ++ t2, (List.append_assoc l1 t1 t2).symm⟩

theorem initial_length_le (l1 l2 : List HANDLE) (h : l1 <+: l2) : l1.length ≤ l2.length := by
  obtain ⟨t, rfl⟩ := h
  rw [List.length_append]
  exact Nat.le_add_right _ _

theorem SameTracking_InfoListAppend (o : NTSTATUS) (A : AMATERASU) (d : INFO_DATA)
    (t : INFO_TYPE) : SameTracking A (InfoListAppend o A d t).2 :=
  ⟨(InfoListAppend_tracking o A d t).1, (InfoListAppend_tracking o A d t).2.1⟩

/-- An id whose lookup just failed is not among the entries left by a successful lookup of
another id under the same kernel answers. -/
theorem not_mem_entries_of_lookup_false (os : OS) (A : AMATERASU) (PPID PID : HANDLE)
    (hF : (AreWeTrackingIt os A PID).1 = false) (hT : (AreWeTrackingIt os A PPID).1 = true) :
    PID ∉ (AreWeTrackingIt os A PPID).2.entries := by
  by_cases h0 : A.HandleArrSize = 0
  · have hd := discovery_set_of_empty os A PPID h0 hT
    rw [hd.2]
    intro hm
    have he : PID = PPID := List.mem_singleton.mp hm
    rw [he, AreWeTrackingIt_empty_of_resolves os A PPID h0 hd.1] at hF
    exact Bool.noConfusion hF
  · rw [AreWeTrackingIt_of_ne_zero os A PPID h0]
    intro hm
    rw [AreWeTrackingIt_eq_true_of_mem os A PID hm] at hF
    exact Bool.noConfusion hF

theorem Nodup_entries_AreWeTrackingIt (os : OS) (A : AMATERASU) (PID : HANDLE)
    (h : A.entries.Nodup) : (AreWeTrackingIt os A PID).2.entries.Nodup := by
  rcases AreWeTrackingIt_cases os A PID with h1 | ⟨h0, h2⟩
  · rw [h1]
    exact h
  · have hT : (AreWeTrackingIt os A PID).1 = true := by rw [h2]
    rw [(discovery_set_of_empty os A PID h0 hT).2]
    exact List.nodup_singleton PID

theorem Nodup_entries_AmaterasuProcCallback (os : OS) (o : NTSTATUS) (A : AMATERASU)
    (PPID PID : HANDLE) (Active : Bool) (h : A.entries.Nodup) :
    (AmaterasuProcCallback os o A PPID PID Active).entries.Nodup := by
  rw [AmaterasuProcCallback_eq]
  by_cases hT : (AreWeTrackingIt os A PID).1 = true
  · rw [if_pos hT, entries_InfoListAppend]
    exact Nodup_entries_AreWeTrackingIt os A PID h
  · rw [if_neg hT]
    by_cases hP : (AreWeTrackingIt os A PPID).1 = true
    · rw [if_pos hP, entries_InfoListAppend, entries_AddPidToHandleArr]
      have hnd := Nodup_entries_AreWeTrackingIt os A PPID h
      split_ifs
      · have hnot := not_mem_entries_of_lookup_false os A PPID PID
          (Bool_eq_false_of_not_true _ hT) hP
        rw [List.nodup_append]
        refine ⟨hnd, List.nodup_singleton PID, ?_⟩
        intro x hx hx1
        rw [List.mem_singleton] at hx1
        rw [hx1] at hx
        exact hnot hx
      · exact hnd
    · rw [if_neg hP]
      exact h

/-- A property kept by `AreWeTrackingIt`, by `InfoListAppend` and by the process callback is
kept by every callback. -/
theorem invoke_preserves_of_proc (P : AMATERASU → Prop)
    (hTrack : ∀ os A PID, P A → P (AreWeTrackingIt os A PID).2)
    (hApp : ∀ o A d t, P A → P (InfoListAppend o A d t).2)
    (hProc : ∀ os o A PPID PID Active, P A → P (AmaterasuProcCallback os o A PPID PID Active))
    (A : AMATERASU) (v : Invocation) (h : P A) : P (invoke A v) := by
  obtain ⟨os, o, c⟩ := v
  cases c with
  | DefaultPre Data =>
    simp only [invoke, AmaterasuDefaultPreCallback]
    split_ifs
    · exact hApp _ _ _ _ (hTrack _ _ _ h)
    · exact hTrack _ _ _ h
    · exact hTrack _ _ _ h
  | LoadImage FullImageName ProcessId ImageInfo =>
    simp only [invoke, AmaterasuLoadImageCallback]
    split_ifs
    · exact hApp _ _ _ _ (hTrack _ _ _ h)
    · exact hTrack _ _ _ h
  | Reg RegNotifyClass RegStruct =>
    simp only [invoke, AmaterasuRegCallback]
    split_ifs
    · exact h
    · exact hApp _ _ _ _ (hTrack _ _ _ h)
    · exact hApp _ _ _ _ (hTrack _ _ _ h)
    · exact hTrack _ _ _ h
  | Proc PPID PID Active => exact hProc os o A PPID PID Active h
  | Thread PPID TID Active =>
    simp only [invoke, AmaterasuThreadCallback]
    split_ifs
    · exact hApp _ _ _ _ (hTrack _ _ _ h)
    · exact hTrack _ _ _ h

theorem Nodup_entries_run (vs : List Invocation) (A : AMATERASU) (h : A.entries.Nodup) :
    (run A vs).entries.Nodup := by
  induction vs generalizing A with
  | nil => exact h
  | cons v vs ih =>
    simp only [run, List.foldl_cons]
    apply ih
    apply invoke_preserves_of_proc (fun B => B.entries.Nodup)
    · exact Nodup_entries_AreWeTrackingIt
    · intro o B d t hB
      show (InfoListAppend o B d t).2.entries.Nodup
      rw [entries_InfoListAppend]
      exact hB
    · exact Nodup_entries_AmaterasuProcCallback
    · exact h

/-- Line 50 decides only whether the lookup returns: when it is defined, the full function
returns what `AreWeTrackingIt` computes. -/
theorem AreWeTrackingItFull_eq (os : OS) (A : AMATERASU) (PID : HANDLE) :
    AreWeTrackingItFull os A PID
      = if BadFree os A PID = true then none else some (AreWeTrackingIt os A PID) := by
  unfold AreWeTrackingItFull AreWeTrackingIt BadFree
  by_cases h0 : A.HandleArrSize = 0
  · cases h1 : NT_SUCCESS (os.PsLookupProcessByProcessId PID).1 with
    | false => simp [h0, h1]
    | true =>
      cases h2 : NT_SUCCESS (os.SeLocateProcessImageName (os.PsLookupProcessByProcessId PID).2).1 with
      | false => simp [h0, h1, h2, RtlFreeUnicodeString]
      | true =>
        cases h3 : (os.SeLocateProcessImageName (os.PsLookupProcessByProcessId PID).2).2 with
        | none => simp [h0, h1, h2, h3, RtlFreeUnicodeString]
        | some u => simp [h0, h1, h2, h3, RtlFreeUnicodeString]
  · simp [h0]

/-- The process callback over the full lookup: undefined when the lookup of `PID`, or after
its failure the lookup of `PPID`, reaches an undefined line 50; otherwise the state that
`AmaterasuProcCallback` computes. -/
theorem AmaterasuProcCallbackFull_eq (os : OS) (o : NTSTATUS) (A : AMATERASU)
    (PPID PID : HANDLE) (Active : Bool) :
    AmaterasuProcCallbackFull os o A PPID PID Active
      = if BadFree os A PID = true then none
        else if (AreWeTrackingIt os A PID).1 = false ∧ BadFree os A PPID = true then none
        else some (AmaterasuProcCallback os o A PPID PID Active) := by
  unfold AmaterasuProcCallbackFull
  rw [AreWeTrackingItFull_eq]
  by_cases hb : BadFree os A PID = true
  · simp only [hb, if_true]
  · simp only [hb, Bool.false_eq_true, if_false]
    cases hT : (AreWeTrackingIt os A PID).1 with
    | true =>
      simp only [Bool.true_eq_false, not_true_eq_false, false_and, if_false,
        AmaterasuProcCallback, hT]
    | false =>
      have hA : (AreWeTrackingIt os A PID).2 = A := AreWeTrackingIt_of_false os A PID hT
      simp only [Bool.false_eq_true, not_false_eq_true, if_true, true_and, hA,
        AreWeTrackingItFull_eq]
      by_cases hp : BadFree os A PPID = true
      · simp only [hp, if_true]
      · simp only [hp, Bool.false_eq_true, if_false, AmaterasuProcCallback, hT, hA,
          not_false_eq_true, if_true]
        by_cases hP : (AreWeTrackingIt os A PPID).1 = true
        · rw [if_pos hP, if_pos hP]
        · rw [if_neg hP, if_neg hP]

/-! ## The claims -/

/-- C1. Capacity invariant: from an empty tracking set, after any finite sequence of callback
invocations, and also of steps that call `AddPidToHandleArr` and `AreWeTrackingIt` directly,
whatever the arguments, the kernel's answers and the append outcomes, `HandleArrSize` is at
most 1024; and `AddPidToHandleArr` on a state with `HandleArrSize = 1024` returns that state
unchanged. -/
theorem capacity_invariant (A : AMATERASU) (vs : List Invocation) (ops : List Op)
    (h0 : A.HandleArrSize = 0) :
    (run A vs).HandleArrSize ≤ 1024 ∧ (runOps A ops).HandleArrSize ≤ 1024 ∧
    ∀ (B : AMATERASU) (PID : HANDLE), B.HandleArrSize = 1024 → AddPidToHandleArr B PID = B := by
  have hA : A.HandleArrSize ≤ 1024 := by omega
  have hApp : ∀ o B d t, B.HandleArrSize ≤ 1024 →
      (InfoListAppend o B d t).2.HandleArrSize ≤ 1024 := by
    intro o B d t hB
    rw [(InfoListAppend_tracking o B d t).2.1]
    exact hB
  refine ⟨?_, ?_, ?_⟩
  · exact run_preserves (fun B => B.HandleArrSize ≤ 1024) HandleArrSize_AddPidToHandleArr_le
      HandleArrSize_AreWeTrackingIt_le hApp vs A hA
  · exact runOps_preserves (fun B => B.HandleArrSize ≤ 1024) HandleArrSize_AddPidToHandleArr_le
      HandleArrSize_AreWeTrackingIt_le hApp ops A hA
  · intro B PID hB
    exact AddPidToHandleArr_of_not_lt B PID (by omega)

theorem capacity_invariant_witness :
    emptyState.HandleArrSize = 0 ∧ (run emptyState sampleRun).HandleArrSize ≤ 1024 ∧
    (runOps emptyState sampleOps).HandleArrSize ≤ 1024 ∧
    fullState.HandleArrSize = 1024 ∧ AddPidToHandleArr fullState 5000 = fullState :=
  ⟨rfl, (capacity_invariant emptyState sampleRun sampleOps rfl).1,
    (capacity_invariant emptyState sampleRun sampleOps rfl).2.1, rfl,
    (capacity_invariant emptyState sampleRun sampleOps rfl).2.2 fullState 5000 rfl⟩

/-- C2. Membership persists: if `HandleArrSize < 1024`, then after `AddPidToHandleArr A p` the
lookup `AreWeTrackingIt` of `p` returns `TRUE`, and it still does after any further finite
sequence of callback invocations, inserts and lookups, whatever their arguments and whatever
the kernel answers. -/
theorem membership_persists (A : AMATERASU) (p : HANDLE) (ops : List Op) (os : OS)
    (h : A.HandleArrSize < 1024) :
    (AreWeTrackingIt os (AddPidToHandleArr A p) p).1 = true ∧
    (AreWeTrackingIt os (runOps (AddPidToHandleArr A p) ops) p).1 = true := by
  have hmem : p ∈ (AddPidToHandleArr A p).entries := by
    rw [entries_AddPidToHandleArr, if_pos h]
    exact List.mem_append_right _ (List.mem_singleton_self p)
  have hrun : p ∈ (runOps (AddPidToHandleArr A p) ops).entries := by
    apply runOps_preserves (fun B => p ∈ B.entries)
    · intro B PID hB
      exact mem_entries_AddPidToHandleArr B PID p hB
    · intro os1 B PID hB
      exact mem_entries_AreWeTrackingIt os1 B PID p hB
    · intro o B d t hB
      show p ∈ (InfoListAppend o B d t).2.entries
      rw [entries_InfoListAppend]
      exact hB
    · exact hmem
  constructor
  · rw [AreWeTrackingIt_eq_true_of_mem os _ p hmem]
  · rw [AreWeTrackingIt_eq_true_of_mem os _ p hrun]

theorem membership_persists_witness :
    smallState.HandleArrSize < 1024 ∧
    (AreWeTrackingIt failingOS (AddPidToHandleArr smallState 99) 99).1 = true ∧
    (AreWeTrackingIt failingOS (runOps (AddPidToHandleArr smallState 99) sampleOps) 99).1
      = true :=
  ⟨by decide, membership_persists smallState 99 sampleOps failingOS (by decide)⟩

/-- C3. Discovery lookup failure reaches an undefined release.  On an empty tracking set,
for a process whose lookup succeeds and whose image-name resolution fails, or succeeds with
a null name, `AreWeTrackingIt` does not return `FALSE`: line 50 hands `RtlFreeUnicodeString`
a pointer that is NULL or was never assigned, and this is the only way the call fails to
return.  When the process lookup itself fails the call returns `FALSE` with the state
unchanged, and when the image path contains the target name it returns `TRUE` with the
set `[PID]`. -/
theorem discovery_failure_bad_free :
    AreWeTrackingItFull unresolvedOS emptyState 2 = none ∧
    AreWeTrackingItFull nullNameOS emptyState 2 = none ∧
    AreWeTrackingItFull failingOS emptyState 2 = some (false, emptyState) ∧
    (AreWeTrackingItFull matchingOS emptyState 2).map (fun r => (r.1, r.2.entries))
      = some (true, [2]) ∧
    (∀ (os : OS) (A : AMATERASU) (PID : HANDLE),
      AreWeTrackingItFull os A PID = none ↔ BadFree os A PID = true) := by
  refine ⟨rfl, rfl, rfl, by decide, ?_⟩
  intro os A PID
  rw [AreWeTrackingItFull_eq]
  by_cases hb : BadFree os A PID = true
  · simp [hb]
  · simp [hb]

/-- C4. Discovery runs at most once: on a non-empty tracking set, `AreWeTrackingIt` of an id
that is not an entry returns `FALSE` and leaves the state unchanged, whatever the kernel
would answer for that id; and in any run from an empty set with no discovery made so far, at
most one insertion is ever made by the name-resolution branch. -/
theorem discovery_at_most_once :
    (∀ (os : OS) (A : AMATERASU) (q : HANDLE), A.HandleArrSize ≠ 0 → q ∉ A.entries →
      AreWeTrackingIt os A q = (false, A)) ∧
    (∀ (A : AMATERASU) (vs : List Invocation), A.HandleArrSize = 0 → A.Discovered = 0 →
      (run A vs).Discovered ≤ 1) := by
  constructor
  · intro os A q hne hq
    exact AreWeTrackingIt_eq_false_of_not_mem os A q hne hq
  · intro A vs h0 hd
    have hA : DiscoveryInv A := ⟨by omega, fun _ => hd⟩
    exact (run_preserves DiscoveryInv DiscoveryInv_AddPidToHandleArr
      DiscoveryInv_AreWeTrackingIt DiscoveryInv_InfoListAppend vs A hA).1

theorem discovery_at_most_once_witness :
    fullState.HandleArrSize ≠ 0 ∧ (5000 : HANDLE) ∉ fullState.entries ∧
    ResolvesToTarget matchingOS fullState.TargetName 5000 ∧
    AreWeTrackingIt matchingOS fullState 5000 = (false, fullState) ∧
    emptyState.HandleArrSize = 0 ∧ emptyState.Discovered = 0 ∧
    (run emptyState sampleRun).Discovered ≤ 1 :=
  ⟨by decide, not_mem_entries_fullState 5000 (by decide), ResolvesToTarget_matchingOS 5000,
    discovery_at_most_once.1 matchingOS fullState 5000 (by decide)
      (not_mem_entries_fullState 5000 (by decide)),
    rfl, rfl, discovery_at_most_once.2 emptyState sampleRun rfl rfl⟩

/-- C5. Registry allow-list: when the notify class is neither `RegNtSetValueKey` nor
`RegNtDeleteValueKey`, `AmaterasuRegCallback` returns `STATUS_SUCCESS` and the whole state
(tracking set, queue, history of lookups and appends) is exactly as on entry, for every state
and every answer the kernel could give about the acting process. -/
theorem registry_allow_list (os : OS) (o : NTSTATUS) (A : AMATERASU)
    (RegNotifyClass RegStruct : PVOID)
    (h1 : castRegNotifyClass RegNotifyClass ≠ RegNtSetValueKey)
    (h2 : castRegNotifyClass RegNotifyClass ≠ RegNtDeleteValueKey) :
    AmaterasuRegCallback os o A RegNotifyClass RegStruct = (STATUS_SUCCESS, A) := by
  unfold AmaterasuRegCallback
  simp only [h1, h2, ne_eq, not_false_eq_true, and_self, if_true]

theorem registry_allow_list_witness :
    castRegNotifyClass 3 ≠ RegNtSetValueKey ∧ castRegNotifyClass 3 ≠ RegNtDeleteValueKey ∧
    ResolvesToTarget matchingOS emptyState.TargetName matchingOS.PsGetCurrentProcessId ∧
    AmaterasuRegCallback matchingOS 0 emptyState 3 77 = (STATUS_SUCCESS, emptyState) :=
  ⟨by decide, by decide, ResolvesToTarget_matchingOS 4,
    registry_allow_list matchingOS 0 emptyState 3 77 (by decide) (by decide)⟩

/-- C6. Registry failure coupling: for a notify class `RegNtSetValueKey` or
`RegNtDeleteValueKey`, `AmaterasuRegCallback` returns a failure status exactly when the acting
process is tracked and the append fails, and the status is then `STATUS_UNSUCCESSFUL`; when
the process is not tracked it returns `STATUS_SUCCESS` and the state is unchanged; when the
process is tracked and the append succeeds it returns the status of the append, and a
registry record with the notify class and the operation structure is the one append made
and the new last element of the queue. -/
theorem registry_failure_coupling (os : OS) (o : NTSTATUS) (A : AMATERASU)
    (RegNotifyClass RegStruct : PVOID)
    (hc : castRegNotifyClass RegNotifyClass = RegNtSetValueKey ∨
      castRegNotifyClass RegNotifyClass = RegNtDeleteValueKey) :
    (NT_SUCCESS (AmaterasuRegCallback os o A RegNotifyClass RegStruct).1 = false ↔
      ((AreWeTrackingIt os A os.PsGetCurrentProcessId).1 = true ∧ NT_SUCCESS o = false)) ∧
    ((AreWeTrackingIt os A os.PsGetCurrentProcessId).1 = true → NT_SUCCESS o = false →
      (AmaterasuRegCallback os o A RegNotifyClass RegStruct).1 = STATUS_UNSUCCESSFUL) ∧
    ((AreWeTrackingIt os A os.PsGetCurrentProcessId).1 = false →
      AmaterasuRegCallback os o A RegNotifyClass RegStruct = (STATUS_SUCCESS, A)) ∧
    ((AreWeTrackingIt os A os.PsGetCurrentProcessId).1 = true → NT_SUCCESS o = true →
      (AmaterasuRegCallback os o A RegNotifyClass RegStruct).1 = o ∧
      (AmaterasuRegCallback os o A RegNotifyClass RegStruct).2.AppendCalls
        = A.AppendCalls ++ [⟨.reg ⟨castRegNotifyClass RegNotifyClass, RegStruct⟩, .INFO_REG⟩] ∧
      ∀ q, A.InfoList = some q →
        (AmaterasuRegCallback os o A RegNotifyClass RegStruct).2.InfoList
          = some (q ++ [⟨.reg ⟨castRegNotifyClass RegNotifyClass, RegStruct⟩, .INFO_REG⟩])) := by
  have hg : ¬ (castRegNotifyClass RegNotifyClass ≠ RegNtSetValueKey ∧
      castRegNotifyClass RegNotifyClass ≠ RegNtDeleteValueKey) := by
    rintro ⟨h1, h2⟩
    rcases hc with h | h
    · exact h1 h
    · exact h2 h
  have hU : NT_SUCCESS STATUS_UNSUCCESSFUL = false := by decide
  have hS : NT_SUCCESS STATUS_SUCCESS = true := by decide
  have hoth := AreWeTrackingIt_others os A os.PsGetCurrentProcessId
  cases hT : (AreWeTrackingIt os A os.PsGetCurrentProcessId).1 with
  | false =>
    have hA := AreWeTrackingIt_of_false os A os.PsGetCurrentProcessId hT
    have hR : AmaterasuRegCallback os o A RegNotifyClass RegStruct = (STATUS_SUCCESS, A) := by
      unfold AmaterasuRegCallback
      simp only [hg, if_false, hT, Bool.false_eq_true, hA]
    rw [hR]
    refine ⟨?_, ?_, ?_, ?_⟩
    · simp [hS]
    · intro h
      exact Bool.noConfusion h
    · intro _
      rfl
    · intro h
      exact Bool.noConfusion h
  | true =>
    have hR : AmaterasuRegCallback os o A RegNotifyClass RegStruct =
        if ¬ NT_SUCCESS o = true then
          (STATUS_UNSUCCESSFUL, (InfoListAppend o (AreWeTrackingIt os A os.PsGetCurrentProcessId).2
            (.reg ⟨castRegNotifyClass RegNotifyClass, RegStruct⟩) .INFO_REG).2)
        else
          (o, (InfoListAppend o (AreWeTrackingIt os A os.PsGetCurrentProcessId).2
            (.reg ⟨castRegNotifyClass RegNotifyClass, RegStruct⟩) .INFO_REG).2) := by
      unfold AmaterasuRegCallback
      simp only [hg, if_false, hT, if_true, InfoListAppend_status]
    rw [hR]
    cases ho : NT_SUCCESS o with
    | false =>
      rw [if_pos (by simp)]
      refine ⟨?_, ?_, ?_, ?_⟩
      · simp [hU]
      · intro _ _
        rfl
      · intro h
        exact Bool.noConfusion h
      · intro _ h
        exact Bool.noConfusion h
    | true =>
      rw [if_neg (by simp)]
      refine ⟨?_, ?_, ?_, ?_⟩
      · simp [ho]
      · intro _ h
        exact Bool.noConfusion h
      · intro h
        exact Bool.noConfusion h
      · intro _ _
        refine ⟨rfl, ?_, ?_⟩
        · rw [InfoListAppend_calls, hoth.2.2]
        · intro q hq
          rw [InfoListAppend_queue o _ _ _ q (hoth.2.1.trans hq), ho]
          simp

theorem registry_failure_coupling_witness :
    castRegNotifyClass 1 = RegNtSetValueKey ∧
    (AreWeTrackingIt trackedOS smallState trackedOS.PsGetCurrentProcessId).1 = true ∧
    NT_SUCCESS (-5) = false ∧
    (AmaterasuRegCallback trackedOS (-5) smallState 1 77).1 = STATUS_UNSUCCESSFUL :=
  ⟨by decide, by decide, by decide,
    (registry_failure_coupling trackedOS (-5) smallState 1 77 (Or.inl (by decide))).2.1
      (by decide) (by decide)⟩

/-- C7, as the claim states it, fails on a saturated set: with the 1024 slots holding
`0 .. 1023`, the id `0` is tracked, yet after the process callback for (parent `0`, id
`5000`) and then for (parent `5000`, id `6000`) the lookup of `6000` returns `FALSE`. -/
theorem transitive_propagation_counterexample :
    (0 : HANDLE) ∈ fullState.entries ∧
    (AreWeTrackingIt matchingOS
      (AmaterasuProcCallback matchingOS 0
        (AmaterasuProcCallback matchingOS 0 fullState 0 5000 true) 5000 6000 true) 6000).1
      = false := by
  have h0 : (0 : HANDLE) ∈ fullState.entries := mem_entries_fullState 0 (by decide)
  have hB : (5000 : HANDLE) ∉ fullState.entries := not_mem_entries_fullState 5000 (by decide)
  have hC : (6000 : HANDLE) ∉ fullState.entries := not_mem_entries_fullState 6000 (by decide)
  have hfull : ¬ fullState.HandleArrSize < 1024 := by decide
  have hE : (AmaterasuProcCallback matchingOS 0 fullState 0 5000 true).entries
      = fullState.entries := by
    rw [entries_AmaterasuProcCallback_of_parent matchingOS 0 fullState 0 5000 true h0 hB,
      if_neg hfull]
  have hne : (AmaterasuProcCallback matchingOS 0 fullState 0 5000 true).HandleArrSize ≠ 0 :=
    HandleArrSize_ne_zero_of_mem _ 0 (by rw [hE]; exact h0)
  have hB1 : (5000 : HANDLE) ∉ (AmaterasuProcCallback matchingOS 0 fullState 0 5000 true).entries :=
    by rw [hE]; exact hB
  have hC1 : (6000 : HANDLE) ∉ (AmaterasuProcCallback matchingOS 0 fullState 0 5000 true).entries :=
    by rw [hE]; exact hC
  refine ⟨h0, ?_⟩
  rw [AmaterasuProcCallback_of_neither matchingOS 0 _ 5000 6000 true hne hC1 hB1,
    AreWeTrackingIt_eq_false_of_not_mem matchingOS _ 6000 hne hC1]

/-- C7, amended. Transitive propagation below capacity: if `a` is tracked, then after the
process callback for (parent `a`, id `b`) and then for (parent `b`, id `c`), the lookup of `c`
returns `TRUE`, provided neither propagation insert meets a full set: `b` is already an entry
or fewer than 1024 entries are held at the first call, and `c` is already an entry or fewer
than 1024 entries are held at the second call. -/
theorem transitive_propagation (os1 os2 os3 : OS) (o1 o2 : NTSTATUS) (A : AMATERASU)
    (a b c : HANDLE) (act1 act2 : Bool) (ha : a ∈ A.entries)
    (hb : b ∈ A.entries ∨ A.HandleArrSize < 1024)
    (hc : c ∈ (AmaterasuProcCallback os1 o1 A a b act1).entries ∨
      (AmaterasuProcCallback os1 o1 A a b act1).HandleArrSize < 1024) :
    (AreWeTrackingIt os3
      (AmaterasuProcCallback os2 o2 (AmaterasuProcCallback os1 o1 A a b act1) b c act2) c).1
      = true := by
  have hb1 : b ∈ (AmaterasuProcCallback os1 o1 A a b act1).entries :=
    mem_entries_AmaterasuProcCallback os1 o1 A a b act1 ha hb
  have hc2 : c ∈ (AmaterasuProcCallback os2 o2
      (AmaterasuProcCallback os1 o1 A a b act1) b c act2).entries :=
    mem_entries_AmaterasuProcCallback os2 o2 _ b c act2 hb1 hc
  rw [AreWeTrackingIt_eq_true_of_mem os3 _ c hc2]

theorem transitive_propagation_witness :
    (10 : HANDLE) ∈ smallState.entries ∧ smallState.HandleArrSize < 1024 ∧
    (AmaterasuProcCallback failingOS 0 smallState 10 20 true).HandleArrSize < 1024 ∧
    (AreWeTrackingIt failingOS
      (AmaterasuProcCallback failingOS (-1)
        (AmaterasuProcCallback failingOS 0 smallState 10 20 true) 20 30 true) 30).1 = true :=
  ⟨by decide, by decide, by decide,
    transitive_propagation failingOS failingOS failingOS 0 (-1) smallState 10 20 30 true true
      (by decide) (Or.inr (by decide)) (Or.inr (by decide))⟩

/-- C9. Process-lifecycle no-op: when `AreWeTrackingIt` returns `FALSE` for `PID` and then for
`PPID`, `AmaterasuProcCallback` returns the state exactly as it received it: nothing is
inserted into the tracking set and no append is made. -/
theorem process_lifecycle_noop (os : OS) (o : NTSTATUS) (A : AMATERASU) (PPID PID : HANDLE)
    (Active : Bool) (h1 : (AreWeTrackingIt os A PID).1 = false)
    (h2 : (AreWeTrackingIt os (AreWeTrackingIt os A PID).2 PPID).1 = false) :
    AmaterasuProcCallback os o A PPID PID Active = A := by
  have hA : (AreWeTrackingIt os A PID).2 = A := AreWeTrackingIt_of_false os A PID h1
  rw [hA] at h2
  rw [AmaterasuProcCallback_eq, h1, h2]
  simp only [Bool.false_eq_true, if_false]

theorem process_lifecycle_noop_witness :
    (AreWeTrackingIt failingOS emptyState 2).1 = false ∧
    (AreWeTrackingIt failingOS (AreWeTrackingIt failingOS emptyState 2).2 1).1 = false ∧
    AmaterasuProcCallback failingOS 0 emptyState 1 2 true = emptyState :=
  ⟨by decide, by decide,
    process_lifecycle_noop failingOS 0 emptyState 1 2 true (by decide) (by decide)⟩

/-- C10. Thread-lifecycle handler: `AmaterasuThreadCallback` makes an `InfoListAppend` call
exactly when `AreWeTrackingIt` returns `TRUE` for `PPID`, with an `INFO_PROC` record whose
fields are `PPID`, `Id.TID = TID`, `isThread = TRUE` and `Active`, which a successful append
puts at the end of an existing queue; the tracking set afterwards is the set before, except
that it is `[PPID]` when the set was empty and `PPID` was discovered by name; on a non-empty
set the array and its size are untouched. -/
theorem thread_lifecycle (os : OS) (o : NTSTATUS) (A : AMATERASU) (PPID TID : HANDLE)
    (Active : Bool) :
    ((AmaterasuThreadCallback os o A PPID TID Active).AppendCalls
      = if (AreWeTrackingIt os A PPID).1 = true
        then A.AppendCalls ++ [⟨.proc ⟨Active, PPID, .TID TID, true⟩, .INFO_PROC⟩]
        else A.AppendCalls) ∧
    (∀ q, A.InfoList = some q →
      (AmaterasuThreadCallback os o A PPID TID Active).InfoList
        = if (AreWeTrackingIt os A PPID).1 = true ∧ NT_SUCCESS o = true
          then some (q ++ [⟨.proc ⟨Active, PPID, .TID TID, true⟩, .INFO_PROC⟩])
          else some q) ∧
    ((AmaterasuThreadCallback os o A PPID TID Active).entries = A.entries ∨
      (A.HandleArrSize = 0 ∧ ResolvesToTarget os A.TargetName PPID ∧
        (AmaterasuThreadCallback os o A PPID TID Active).entries = [PPID])) ∧
    (A.HandleArrSize ≠ 0 →
      (AmaterasuThreadCallback os o A PPID TID Active).HandleArr = A.HandleArr ∧
      (AmaterasuThreadCallback os o A PPID TID Active).HandleArrSize = A.HandleArrSize) := by
  rw [AmaterasuThreadCallback_eq]
  have hoth := AreWeTrackingIt_others os A PPID
  by_cases hT : (AreWeTrackingIt os A PPID).1 = true
  · simp only [hT, if_true, true_and]
    refine ⟨?_, ?_, ?_, ?_⟩
    · rw [InfoListAppend_calls, hoth.2.2]
    · intro q hq
      exact InfoListAppend_queue o _ _ _ q (hoth.2.1.trans hq)
    · rw [entries_InfoListAppend]
      by_cases h0 : A.HandleArrSize = 0
      · right
        have hd := discovery_set_of_empty os A PPID h0 hT
        exact ⟨h0, hd.1, hd.2⟩
      · left
        rw [AreWeTrackingIt_of_ne_zero os A PPID h0]
    · intro hne
      rw [(InfoListAppend_tracking o _ _ _).1, (InfoListAppend_tracking o _ _ _).2.1,
        AreWeTrackingIt_of_ne_zero os A PPID hne]
      exact ⟨rfl, rfl⟩
  · rw [if_neg hT, if_neg hT]
    refine ⟨rfl, ?_, Or.inl rfl, fun _ => ⟨rfl, rfl⟩⟩
    intro q hq
    rw [if_neg (fun hc => hT hc.1)]
    exact hq

theorem thread_lifecycle_witness :
    (AreWeTrackingIt matchingOS emptyState 7).1 = true ∧
    (AmaterasuThreadCallback matchingOS 0 emptyState 7 9 true).AppendCalls
      = [⟨.proc ⟨true, 7, .TID 9, true⟩, .INFO_PROC⟩] ∧
    (AmaterasuThreadCallback matchingOS 0 emptyState 7 9 true).InfoList
      = some [⟨.proc ⟨true, 7, .TID 9, true⟩, .INFO_PROC⟩] :=
  ⟨by decide,
    (thread_lifecycle matchingOS 0 emptyState 7 9 true).1.trans (if_pos (by decide)),
    ((thread_lifecycle matchingOS 0 emptyState 7 9 true).2.1 [] rfl).trans
      (if_pos ⟨by decide, by decide⟩)⟩

/-- C12. Image-load handler: `AmaterasuLoadImageCallback` makes an `InfoListAppend` call
exactly when `AreWeTrackingIt` returns `TRUE` for `ProcessId`; the record has tag `INFO_LOAD`
and its fields `FullImageName`, `ProcessId`, `ImageInfo` are the three arguments; when the
lookup returns `FALSE` the whole state, queue included, is unchanged. -/
theorem image_load_record (os : OS) (o : NTSTATUS) (A : AMATERASU)
    (FullImageName : Option UNICODE_STRING) (ProcessId : HANDLE) (ImageInfo : PVOID) :
    ((AmaterasuLoadImageCallback os o A FullImageName ProcessId ImageInfo).AppendCalls
      = if (AreWeTrackingIt os A ProcessId).1 = true
        then A.AppendCalls ++ [⟨.load ⟨FullImageName, ProcessId, ImageInfo⟩, .INFO_LOAD⟩]
        else A.AppendCalls) ∧
    ((AreWeTrackingIt os A ProcessId).1 = false →
      AmaterasuLoadImageCallback os o A FullImageName ProcessId ImageInfo = A) ∧
    (∀ q, A.InfoList = some q →
      (AmaterasuLoadImageCallback os o A FullImageName ProcessId ImageInfo).InfoList
        = if (AreWeTrackingIt os A ProcessId).1 = true ∧ NT_SUCCESS o = true
          then some (q ++ [⟨.load ⟨FullImageName, ProcessId, ImageInfo⟩, .INFO_LOAD⟩])
          else some q) := by
  rw [AmaterasuLoadImageCallback_eq]
  have hoth := AreWeTrackingIt_others os A ProcessId
  by_cases hT : (AreWeTrackingIt os A ProcessId).1 = true
  · rw [if_pos hT, if_pos hT]
    refine ⟨?_, ?_, ?_⟩
    · rw [InfoListAppend_calls, hoth.2.2]
    · intro hf
      rw [hT] at hf
      exact Bool.noConfusion hf
    · intro q hq
      rw [InfoListAppend_queue o _ _ _ q (hoth.2.1.trans hq)]
      by_cases ho : NT_SUCCESS o = true
      · rw [if_pos ho, if_pos ⟨hT, ho⟩]
      · rw [if_neg ho, if_neg (fun hc => ho hc.2)]
  · rw [if_neg hT, if_neg hT]
    refine ⟨rfl, fun _ => rfl, ?_⟩
    intro q hq
    rw [if_neg (fun hc => hT hc.1)]
    exact hq

theorem image_load_record_witness :
    (AreWeTrackingIt failingOS smallState 12).1 = true ∧
    (AmaterasuLoadImageCallback failingOS 0 smallState none 12 5).AppendCalls
      = [⟨.load ⟨none, 12, 5⟩, .INFO_LOAD⟩] ∧
    (AreWeTrackingIt failingOS smallState 13).1 = false ∧
    AmaterasuLoadImageCallback failingOS 0 smallState none 13 5 = smallState :=
  ⟨by decide,
    (image_load_record failingOS 0 smallState none 12 5).1.trans (if_pos (by decide)),
    by decide,
    (image_load_record failingOS 0 smallState none 13 5).2.1 (by decide)⟩

/-- C13. Append-only tracking set: for `AddPidToHandleArr`, for `AreWeTrackingIt`, for each of
the five callbacks and for any finite sequence of them, the sequence of entries before the
call is an initial segment of the sequence of entries after it, so no entry is removed,
overwritten or reordered, and `HandleArrSize` never decreases. -/
theorem append_only (A : AMATERASU) :
    (∀ PID, A.entries <+: (AddPidToHandleArr A PID).entries) ∧
    (∀ os PID, A.entries <+: (AreWeTrackingIt os A PID).2.entries) ∧
    (∀ v, A.entries <+: (invoke A v).entries ∧ A.HandleArrSize ≤ (invoke A v).HandleArrSize) ∧
    (∀ ops, A.entries <+: (runOps A ops).entries ∧
      A.HandleArrSize ≤ (runOps A ops).HandleArrSize) := by
  have hAdd : ∀ (B : AMATERASU) (PID : HANDLE), A.entries <+: B.entries →
      A.entries <+: (AddPidToHandleArr B PID).entries := fun B PID hB =>
    initial_trans _ _ _ hB (entries_AddPidToHandleArr_initial B PID)
  have hTrack : ∀ (os : OS) (B : AMATERASU) (PID : HANDLE), A.entries <+: B.entries →
      A.entries <+: (AreWeTrackingIt os B PID).2.entries := fun os B PID hB =>
    initial_trans _ _ _ hB (entries_AreWeTrackingIt_initial os B PID)
  have hApp : ∀ (o : NTSTATUS) (B : AMATERASU) (d : INFO_DATA) (t : INFO_TYPE),
      A.entries <+: B.entries → A.entries <+: (InfoListAppend o B d t).2.entries := by
    intro o B d t hB
    rw [entries_InfoListAppend]
    exact hB
  have hrefl : A.entries <+: A.entries := ⟨[], List.append_nil _⟩
  have hlen : ∀ B : AMATERASU, A.entries <+: B.entries → A.HandleArrSize ≤ B.HandleArrSize := by
    intro B hB
    have h := initial_length_le _ _ hB
    rw [HandleArrSize_eq_length_entries, HandleArrSize_eq_length_entries] at h
    exact h
  refine ⟨?_, ?_, ?_, ?_⟩
  · intro PID
    exact entries_AddPidToHandleArr_initial A PID
  · intro os PID
    exact entries_AreWeTrackingIt_initial os A PID
  · intro v
    have h := invoke_preserves (fun B => A.entries <+: B.entries) hAdd hTrack hApp A v hrefl
    exact ⟨h, hlen _ h⟩
  · intro ops
    have h := runOps_preserves (fun B => A.entries <+: B.entries) hAdd hTrack hApp ops A hrefl
    exact ⟨h, hlen _ h⟩

/-- C14. Start-up with a failing queue creation is not unwound: when every kernel service
succeeds and `InfoListGet` returns null, `Setup` leaves through a `return` without a status.
Whatever value `r` the caller then reads, `DriverEntry` either reports success to the host,
or returns `r` with the communication port still open; for `r = STATUS_SUCCESS` the driver
ends up filtering without a queue, and for `r = STATUS_UNSUCCESSFUL` only the filter
registration is undone. -/
theorem startup_queue_failure_not_unwound (AmaterasuCleanup : REGISTRATIONS → REGISTRATIONS)
    (r : NTSTATUS) :
    (NT_SUCCESS (DriverEntry AmaterasuCleanup (queueFailure r) REGISTRATIONS.none).1 = true ∨
      ((DriverEntry AmaterasuCleanup (queueFailure r) REGISTRATIONS.none).1 = r ∧
        (DriverEntry AmaterasuCleanup (queueFailure r) REGISTRATIONS.none).2.ServerPort
          = true)) ∧
    DriverEntry AmaterasuCleanup (queueFailure STATUS_SUCCESS) REGISTRATIONS.none
      = (STATUS_SUCCESS, ⟨true, true, false, false, true⟩) ∧
    DriverEntry AmaterasuCleanup (queueFailure STATUS_UNSUCCESSFUL) REGISTRATIONS.none
      = (STATUS_UNSUCCESSFUL, ⟨false, true, false, false, false⟩) := by
  have h0 : NT_SUCCESS 0 = true := by decide
  have hS : ∀ x : NTSTATUS, Setup (queueFailure x) ⟨true, false, false, false, false⟩
      = (x, ⟨true, true, false, false, false⟩) := by
    intro x
    simp [Setup, OpenPorts, CreatePort, FltFreeSecurityDescriptor, queueFailure, h0]
  have hD : ∀ x : NTSTATUS, DriverEntry AmaterasuCleanup (queueFailure x) REGISTRATIONS.none
      = if ¬ NT_SUCCESS x = true then (x, ⟨false, true, false, false, false⟩)
        else (0, ⟨true, true, false, false, true⟩) := by
    intro x
    have hk : (queueFailure x).FltRegisterFilter = 0 := rfl
    have hf : (queueFailure x).FltStartFiltering = 0 := rfl
    unfold DriverEntry
    simp only [hk, hf, h0, not_true_eq_false, if_false, REGISTRATIONS.none, hS]
    by_cases hx : NT_SUCCESS x = true
    · simp [hx]
    · simp [hx, FltUnregisterFilter]
  refine ⟨?_, ?_, ?_⟩
  · rw [hD r]
    by_cases hr : NT_SUCCESS r = true
    · left
      rw [if_neg (not_not_intro hr)]
      exact h0
    · right
      rw [if_pos hr]
      exact ⟨rfl, rfl⟩
  · rw [hD STATUS_SUCCESS]
    rfl
  · rw [hD STATUS_UNSUCCESSFUL]
    rfl

/-- C16. Lookup on a non-empty set is pure membership: when `1 ≤ HandleArrSize ≤ 1024`,
`AreWeTrackingIt` returns `TRUE` exactly when `PID` equals one of the first `HandleArrSize`
slots of `HandleArr`, it returns the state unchanged, and its result is the same for every
kernel answer and every target name. -/
theorem lookup_nonempty_is_membership (os : OS) (A : AMATERASU) (PID : HANDLE)
    (h1 : 1 ≤ A.HandleArrSize) (_h2 : A.HandleArrSize ≤ 1024) :
    ((AreWeTrackingIt os A PID).1 = true ↔
      ∃ i, i < A.HandleArrSize ∧ A.HandleArr i = PID) ∧
    (AreWeTrackingIt os A PID).2 = A ∧
    ∀ (os2 : OS) (T : List WCHAR),
      (AreWeTrackingIt os2 { A with TargetName := T } PID).1 = (AreWeTrackingIt os A PID).1 := by
  have hne : A.HandleArrSize ≠ 0 := by omega
  refine ⟨?_, ?_, ?_⟩
  · rw [AreWeTrackingIt_of_ne_zero os A PID hne]
    show scanHandleArr A.HandleArr PID A.HandleArrSize 0 = true ↔ _
    rw [scanHandleArr_eq_true_iff_mem, mem_entries_iff]
  · rw [AreWeTrackingIt_of_ne_zero os A PID hne]
  · intro os2 T
    rw [AreWeTrackingIt_of_ne_zero os A PID hne,
      AreWeTrackingIt_of_ne_zero os2 { A with TargetName := T } PID hne]

theorem lookup_nonempty_is_membership_witness :
    1 ≤ smallState.HandleArrSize ∧ smallState.HandleArrSize ≤ 1024 ∧
    ((AreWeTrackingIt matchingOS smallState 12).1 = true ↔
      ∃ i, i < smallState.HandleArrSize ∧ smallState.HandleArr i = 12) ∧
    (AreWeTrackingIt matchingOS smallState 12).2 = smallState :=
  ⟨by decide, by decide,
    (lookup_nonempty_is_membership matchingOS smallState 12 (by decide) (by decide)).1,
    (lookup_nonempty_is_membership matchingOS smallState 12 (by decide) (by decide)).2.1⟩

/-- C17. Propagation at saturation: with exactly 1024 entries, `PPID` among them and `PID`
not, `AmaterasuProcCallback` leaves the array and its size unchanged, a later lookup of `PID`
still returns `FALSE`, and it still makes exactly one `InfoListAppend` call with the
`INFO_PROC` record of (`PPID`, `PID`, `isThread = FALSE`, `Active`), which a successful append
puts at the end of an existing queue. -/
theorem propagation_at_saturation (os os2 : OS) (o : NTSTATUS) (A : AMATERASU)
    (PPID PID : HANDLE) (Active : Bool) (hs : A.HandleArrSize = 1024)
    (hP : PPID ∈ A.entries) (h : PID ∉ A.entries) :
    SameTracking A (AmaterasuProcCallback os o A PPID PID Active) ∧
    (AmaterasuProcCallback os o A PPID PID Active).entries = A.entries ∧
    (AreWeTrackingIt os2 (AmaterasuProcCallback os o A PPID PID Active) PID).1 = false ∧
    (AmaterasuProcCallback os o A PPID PID Active).AppendCalls
      = A.AppendCalls ++ [⟨.proc ⟨Active, PPID, .PID PID, false⟩, .INFO_PROC⟩] ∧
    ∀ q, A.InfoList = some q →
      (AmaterasuProcCallback os o A PPID PID Active).InfoList
        = if NT_SUCCESS o = true
          then some (q ++ [⟨.proc ⟨Active, PPID, .PID PID, false⟩, .INFO_PROC⟩])
          else some q := by
  have hne : A.HandleArrSize ≠ 0 := by omega
  have hfull : ¬ A.HandleArrSize < 1024 := by omega
  have hR : AmaterasuProcCallback os o A PPID PID Active
      = (InfoListAppend o A (.proc ⟨Active, PPID, .PID PID, false⟩) .INFO_PROC).2 := by
    rw [AmaterasuProcCallback_eq, AreWeTrackingIt_eq_false_of_not_mem os A PID hne h,
      AreWeTrackingIt_eq_true_of_mem os A PPID hP]
    simp only [Bool.false_eq_true, if_false, if_true]
    rw [AddPidToHandleArr_of_not_lt A PID hfull]
  have hT := InfoListAppend_tracking o A (.proc ⟨Active, PPID, .PID PID, false⟩) .INFO_PROC
  have hE : (AmaterasuProcCallback os o A PPID PID Active).entries = A.entries := by
    rw [hR, entries_InfoListAppend]
  have hsz : (AmaterasuProcCallback os o A PPID PID Active).HandleArrSize ≠ 0 := by
    rw [hR, hT.2.1]
    exact hne
  refine ⟨?_, hE, ?_, ?_, ?_⟩
  · rw [hR]
    exact ⟨hT.1, hT.2.1⟩
  · rw [AreWeTrackingIt_eq_false_of_not_mem os2 _ PID hsz (by rw [hE]; exact h)]
  · rw [hR, InfoListAppend_calls]
  · intro q hq
    rw [hR]
    exact InfoListAppend_queue o A _ _ q hq

theorem propagation_at_saturation_witness :
    fullState.HandleArrSize = 1024 ∧ (3 : HANDLE) ∈ fullState.entries ∧
    (5000 : HANDLE) ∉ fullState.entries ∧
    (AmaterasuProcCallback matchingOS 0 fullState 3 5000 true).entries = fullState.entries ∧
    (AreWeTrackingIt matchingOS (AmaterasuProcCallback matchingOS 0 fullState 3 5000 true)
      5000).1 = false ∧
    (AmaterasuProcCallback matchingOS 0 fullState 3 5000 true).AppendCalls
      = [⟨.proc ⟨true, 3, .PID 5000, false⟩, .INFO_PROC⟩] :=
  ⟨rfl, mem_entries_fullState 3 (by decide), not_mem_entries_fullState 5000 (by decide),
    (propagation_at_saturation matchingOS matchingOS 0 fullState 3 5000 true rfl
      (mem_entries_fullState 3 (by decide)) (not_mem_entries_fullState 5000 (by decide))).2.1,
    (propagation_at_saturation matchingOS matchingOS 0 fullState 3 5000 true rfl
      (mem_entries_fullState 3 (by decide)) (not_mem_entries_fullState 5000 (by decide))).2.2.1,
    (propagation_at_saturation matchingOS matchingOS 0 fullState 3 5000 true rfl
      (mem_entries_fullState 3 (by decide))
      (not_mem_entries_fullState 5000 (by decide))).2.2.2.1⟩

/-- C18. Discovery through the parent stops at an unresolved child.  On an empty set, with
a parent `1` whose image path contains the target name and a child `2` whose process lookup
succeeds and whose image-name resolution fails, `AmaterasuProcCallback` does not end with
the entries `[1, 2]`: the lookup of the child reaches line 50 with a pointer that was never
assigned, before the parent is looked up.  When the child's name is resolved and does not
match, the entries end as `[1, 2]`, and when the id itself matches they end as `[1]`. -/
theorem parent_discovery_bad_free :
    ResolvesToTarget childUnresolvedOS emptyState.TargetName 1 ∧
    ¬ ResolvesToTarget childUnresolvedOS emptyState.TargetName 2 ∧
    AmaterasuProcCallbackFull childUnresolvedOS 0 emptyState 1 2 true = none ∧
    (AmaterasuProcCallbackFull parentOnlyOS 0 emptyState 1 2 true).map AMATERASU.entries
      = some [1, 2] ∧
    (AmaterasuProcCallbackFull parentOnlyOS 0 emptyState 7 1 true).map AMATERASU.entries
      = some [1] := by
  refine ⟨⟨rfl, rfl, String.toList "mal.exe", rfl, ⟨[], String.toList ".exe", rfl⟩⟩, ?_, rfl,
    by decide, by decide⟩
  rintro ⟨_, h2, _⟩
  exact absurd h2 (by decide)

/-- C19. No duplicate entries: with the kernel's answers fixed during each callback
invocation, after any finite sequence of callback invocations from an empty tracking set the
entries are pairwise distinct. -/
theorem no_duplicate_entries (A : AMATERASU) (vs : List Invocation)
    (h0 : A.HandleArrSize = 0) : (run A vs).entries.Nodup := by
  apply Nodup_entries_run
  have hnil : A.entries = [] := by simp [AMATERASU.entries, h0]
  rw [hnil]
  exact List.nodup_nil

theorem no_duplicate_entries_witness :
    emptyState.HandleArrSize = 0 ∧ (run emptyState propagationRun).entries = [1, 2, 3] ∧
    (run emptyState propagationRun).entries.Nodup :=
  ⟨rfl, by decide, no_duplicate_entries emptyState propagationRun rfl⟩

/-- C20. Only process-lifecycle events grow a non-empty set: on a non-empty tracking set the
filesystem pre-handler, the image-load handler, the registry handler and the thread handler
leave the array and its size unchanged for every argument, and the process handler leaves
the entries as they were or adds the single entry `PID` at the end. -/
theorem only_process_events_grow (os : OS) (o : NTSTATUS) (A : AMATERASU)
    (hne : A.HandleArrSize ≠ 0) :
    (∀ Data, SameTracking A (AmaterasuDefaultPreCallback os o A Data).2) ∧
    (∀ FullImageName ProcessId ImageInfo,
      SameTracking A (AmaterasuLoadImageCallback os o A FullImageName ProcessId ImageInfo)) ∧
    (∀ RegNotifyClass RegStruct,
      SameTracking A (AmaterasuRegCallback os o A RegNotifyClass RegStruct).2) ∧
    (∀ PPID TID Active, SameTracking A (AmaterasuThreadCallback os o A PPID TID Active)) ∧
    (∀ PPID PID Active,
      (AmaterasuProcCallback os o A PPID PID Active).entries = A.entries ∨
      (AmaterasuProcCallback os o A PPID PID Active).entries = A.entries ++ [PID]) := by
  have hT : ∀ p : HANDLE, (AreWeTrackingIt os A p).2 = A := by
    intro p
    rw [AreWeTrackingIt_of_ne_zero os A p hne]
  have hrefl : SameTracking A A := ⟨rfl, rfl⟩
  refine ⟨?_, ?_, ?_, ?_, ?_⟩
  · intro Data
    rw [AmaterasuDefaultPreCallback_eq]
    show SameTracking A (if _ then _ else _)
    rw [hT]
    split_ifs
    · exact SameTracking_InfoListAppend _ _ _ _
    · exact hrefl
  · intro FullImageName ProcessId ImageInfo
    rw [AmaterasuLoadImageCallback_eq, hT]
    split_ifs
    · exact SameTracking_InfoListAppend _ _ _ _
    · exact hrefl
  · intro RegNotifyClass RegStruct
    unfold AmaterasuRegCallback
    simp only [hT]
    split_ifs
    · exact hrefl
    · exact SameTracking_InfoListAppend _ _ _ _
    · exact SameTracking_InfoListAppend _ _ _ _
    · exact hrefl
  · intro PPID TID Active
    rw [AmaterasuThreadCallback_eq, hT]
    split_ifs
    · exact SameTracking_InfoListAppend _ _ _ _
    · exact hrefl
  · intro PPID PID Active
    rw [AmaterasuProcCallback_eq, hT, hT]
    split_ifs
    · left
      rw [entries_InfoListAppend]
    · rw [entries_InfoListAppend, entries_AddPidToHandleArr]
      split_ifs
      · right
        rfl
      · left
        rfl
    · left
      rfl

theorem only_process_events_grow_witness :
    smallState.HandleArrSize ≠ 0 ∧
    SameTracking smallState (AmaterasuThreadCallback matchingOS 0 smallState 10 77 true) ∧
    SameTracking smallState (AmaterasuRegCallback matchingOS 0 smallState 1 77).2 ∧
    ((AmaterasuProcCallback matchingOS 0 smallState 10 20 true).entries = smallState.entries ∨
      (AmaterasuProcCallback matchingOS 0 smallState 10 20 true).entries
        = smallState.entries ++ [20]) ∧
    (AmaterasuProcCallback matchingOS 0 smallState 10 20 true).entries = [10, 11, 12, 20] :=
  ⟨by decide, (only_process_events_grow matchingOS 0 smallState (by decide)).2.2.2.1 10 77 true,
    (only_process_events_grow matchingOS 0 smallState (by decide)).2.2.1 1 77,
    (only_process_events_grow matchingOS 0 smallState (by decide)).2.2.2.2 10 20 true,
    by decide⟩

end Amaterasu
